import Mathlib

/-!
Verification development for the BrowserAgent execution core of this repository
(`packages/nodes-base/nodes/BrowserAgent/utils/`): a shallow embedding in Lean 4 of
`elementIndexer.ts`, `navigator.ts` and `executionLoop.ts`, together with theorems about
the DOM-change detector, the action executor, the navigator response parser, the
field-type detector, the overlay/screenshot helper and the main execution loop.

Modelling conventions:
* Browser-automation calls (`page.click`, `page.goto`, screenshots, ...) are opaque
  effects; each call site is given the outcome of its underlying primitive through an
  oracle argument (`Except String Unit`: `.error msg` models the call throwing, which
  the TypeScript code catches).  Likewise the language-model calls are represented by
  their (already JSON-parsed) responses supplied through the environment.
* JavaScript `undefined` for an optional field is `Option.none`; the JS truthiness
  idiom `a || b` on strings (empty string falsy) is `jsOr` below.
* The numeric thresholds are exact: `countDiff > oldLen * 0.2` is written as the
  equivalent integer comparison `10 * countDiff > 2 * oldLen` (and `* 0.3` as
  `10 * n > 3 * oldLen`); the element counts involved are far below any range where
  IEEE double rounding of `0.2`/`0.3` could flip these comparisons.
* Wall-clock times, screenshot pixel data and bounding-box geometry are irrelevant
  to the properties below; screenshots are abstracted to opaque strings.
-/

namespace BrowserAgent

/-- JS `a || b` for an optional string `a` (both `undefined` and `""` are falsy). -/
def jsOr (a : Option String) (b : String) : String :=
  match a with
  | some s => if s = "" then b else s
  | none => b

/-- JS truthiness filter for an optional string: `undefined` and `""` become `none`. -/
def jsTruthy (a : Option String) : Option String :=
  match a with
  | some s => if s = "" then none else some s
  | none => none

/-- JS `String.prototype.toLowerCase` (character-wise; the attribute strings involved
are ASCII). -/
def jsToLowerCase (s : String) : String := ⟨s.data.map Char.toLower⟩

/-- `IndexedElement` from `elementIndexer.ts`.  The `boundingBox` rectangle is pixel
geometry used only for the visual overlay and is not modelled. -/
structure IndexedElement where
  index : Nat
  type : String := ""
  text : Option String := none
  placeholder : Option String := none
  href : Option String := none
  ariaLabel : Option String := none
  selector : String
deriving DecidableEq, Repr

/-- `hasSignificantDOMChange` from `elementIndexer.ts` (lines 270-293):
true when the element count differs by more than 20% of the old count, or when the
number of new-list elements whose `selector` is not in the old selector set exceeds
30% of the old count. -/
def hasSignificantDOMChange (oldElements newElements : List IndexedElement) : Bool :=
  -- const countDiff = Math.abs(oldElements.length - newElements.length)
  let countDiff : Nat := ((oldElements.length : Int) - (newElements.length : Int)).natAbs
  -- countDiff > oldElements.length * 0.2, in exact integer form
  if 10 * countDiff > 2 * oldElements.length then
    true
  else
    -- const oldSelectors = new Set(oldElements.map(e => e.selector))
    let oldSelectors := oldElements.map (·.selector)
    let newSelectors := newElements.map (·.selector)
    let newCount := newSelectors.countP (fun s => !(oldSelectors.contains s))
    -- newCount > oldElements.length * 0.3, in exact integer form
    decide (10 * newCount > 3 * oldElements.length)

/-- Modelled from the spec (for comparison with the code's `hasSignificantDOMChange`):
"Triggers true if the element count differs by more than 20% of the old count, OR if
more than 30% of the *new* elements have a `selector` not present in the old set."
The second threshold here is measured against the new count, as the spec words say. -/
def specHasSignificantDOMChange (oldElements newElements : List IndexedElement) : Bool :=
  let countDiff : Nat := ((oldElements.length : Int) - (newElements.length : Int)).natAbs
  if 10 * countDiff > 2 * oldElements.length then
    true
  else
    let oldSelectors := oldElements.map (·.selector)
    let newSelectors := newElements.map (·.selector)
    let newCount := newSelectors.countP (fun s => !(oldSelectors.contains s))
    -- newCount > newElements.length * 0.3: the spec measures against the NEW count
    decide (10 * newCount > 3 * newElements.length)

/-! ## Navigator data model (`navigator.ts`) -/

/-- Arguments of an element-index action (`click_element`, `scroll_to_element`, `hover`). -/
structure IndexArgs where
  index : Nat
  intent : Option String := none
deriving DecidableEq, Repr

/-- Arguments of `input_text`. -/
structure InputTextArgs where
  index : Nat
  text : Option String := none
  intent : Option String := none
deriving DecidableEq, Repr

/-- Arguments of `go_to_url`. -/
structure GoToUrlArgs where
  url : Option String := none
  intent : Option String := none
deriving DecidableEq, Repr

/-- Arguments of `send_keys`. -/
structure SendKeysArgs where
  keys : Option String := none
  intent : Option String := none
deriving DecidableEq, Repr

/-- Arguments of `scroll_down` / `scroll_up`. -/
structure ScrollArgs where
  pixels : Option Nat := none
  intent : Option String := none
deriving DecidableEq, Repr

/-- Arguments of `wait`. -/
structure WaitArgs where
  seconds : Option Nat := none
  intent : Option String := none
deriving DecidableEq, Repr

/-- Arguments of `select_option`. -/
structure SelectOptionArgs where
  index : Nat
  value : Option String := none
  intent : Option String := none
deriving DecidableEq, Repr

/-- Arguments of `done`. -/
structure DoneArgs where
  text : Option String := none
  success : Option Bool := none
deriving DecidableEq, Repr

/-- `ActionItem` from `navigator.ts`: an object with (at most) one operation key. -/
structure ActionItem where
  click_element : Option IndexArgs := none
  input_text : Option InputTextArgs := none
  go_to_url : Option GoToUrlArgs := none
  send_keys : Option SendKeysArgs := none
  scroll_down : Option ScrollArgs := none
  scroll_up : Option ScrollArgs := none
  scroll_to_element : Option IndexArgs := none
  wait : Option WaitArgs := none
  hover : Option IndexArgs := none
  select_option : Option SelectOptionArgs := none
  done : Option DoneArgs := none
deriving DecidableEq, Repr

/-- Uniform view of `getActionArgs`'s `Record<string, unknown>` result: each field is
the value the executor reads with an `as` cast, `none` when the key is absent. -/
structure ActionArgs where
  index : Option Nat := none
  text : Option String := none
  url : Option String := none
  keys : Option String := none
  pixels : Option Nat := none
  seconds : Option Nat := none
  value : Option String := none
  intent : Option String := none
  success : Option Bool := none
deriving DecidableEq, Repr

/-- `getActionType` from `navigator.ts`: `Object.keys(action)[0] || 'unknown'`, with
keys in the `ActionItem` interface's declaration order. -/
def getActionType (a : ActionItem) : String :=
  if a.click_element.isSome then "click_element"
  else if a.input_text.isSome then "input_text"
  else if a.go_to_url.isSome then "go_to_url"
  else if a.send_keys.isSome then "send_keys"
  else if a.scroll_down.isSome then "scroll_down"
  else if a.scroll_up.isSome then "scroll_up"
  else if a.scroll_to_element.isSome then "scroll_to_element"
  else if a.wait.isSome then "wait"
  else if a.hover.isSome then "hover"
  else if a.select_option.isSome then "select_option"
  else if a.done.isSome then "done"
  else "unknown"

/-- `getActionArgs` from `navigator.ts`: the argument object under the first key
(`{}` for an empty action object). -/
def getActionArgs (a : ActionItem) : ActionArgs :=
  if let some g := a.click_element then { index := some g.index, intent := g.intent }
  else if let some g := a.input_text then
    { index := some g.index, text := g.text, intent := g.intent }
  else if let some g := a.go_to_url then { url := g.url, intent := g.intent }
  else if let some g := a.send_keys then { keys := g.keys, intent := g.intent }
  else if let some g := a.scroll_down then { pixels := g.pixels, intent := g.intent }
  else if let some g := a.scroll_up then { pixels := g.pixels, intent := g.intent }
  else if let some g := a.scroll_to_element then { index := some g.index, intent := g.intent }
  else if let some g := a.wait then { seconds := g.seconds, intent := g.intent }
  else if let some g := a.hover then { index := some g.index, intent := g.intent }
  else if let some g := a.select_option then
    { index := some g.index, value := g.value, intent := g.intent }
  else if let some g := a.done then { text := g.text, success := g.success }
  else {}

/-- `ActionResult` from `navigator.ts`. -/
structure ActionResult where
  success : Bool
  error : Option String := none
  isDone : Bool := false
  result : Option String := none
  data : Option Bool := none
deriving DecidableEq, Repr

/-- The error string `` `Element [${index}] not found` `` (`index` printed as a JS
number, `undefined` when the args carry no index). -/
def elementNotFound (index : Option Nat) : String :=
  "Element [" ++ (match index with | some i => toString i | none => "undefined") ++ "] not found"

/-- `executeSingleAction` from `executionLoop.ts` (lines 829-936).  `prim` is the
outcome of the one underlying browser-automation call of the taken branch
(`.error msg` models that call throwing; the surrounding `try`/`catch` converts it
into a failed `ActionResult`).  `go_to_url` with an absent `url` throws a synchronous
`TypeError` on `url.startsWith` before any browser call; the `catch` turns that into
a failure as well (its exact message is abstracted here). -/
def executeSingleAction (actionType : String) (args : ActionArgs)
    (elements : List IndexedElement) (prim : Except String Unit) : ActionResult :=
  let fromPrim : ActionResult :=
    match prim with
    | .error e => { success := false, error := some e }
    | .ok _ => { success := true }
  let indexed : ActionResult :=
    match elements.find? (fun e => args.index == some e.index) with
    | none => { success := false, error := some (elementNotFound args.index) }
    | some _ => fromPrim
  if actionType = "click_element" then indexed
  else if actionType = "input_text" then indexed
  else if actionType = "go_to_url" then
    match args.url with
    | none =>
      { success := false,
        error := some "TypeError: Cannot read properties of undefined (reading 'startsWith')" }
    | some _ => fromPrim
  else if actionType = "send_keys" then fromPrim
  else if actionType = "scroll_down" then fromPrim
  else if actionType = "scroll_up" then fromPrim
  else if actionType = "scroll_to_element" then indexed
  else if actionType = "wait" then fromPrim
  else if actionType = "hover" then indexed
  else if actionType = "select_option" then indexed
  else if actionType = "done" then
    { success := true, isDone := true, result := args.text, data := args.success }
  else { success := false, error := some ("Unknown action type: " ++ actionType) }

/-- The action types `executeSingleAction` dispatches on (its `switch` cases). -/
def knownActionTypes : List String :=
  ["click_element", "input_text", "go_to_url", "send_keys", "scroll_down", "scroll_up",
    "scroll_to_element", "wait", "hover", "select_option", "done"]

/-- The action types that resolve an element index against the snapshot. -/
def indexActionTypes : List String :=
  ["click_element", "input_text", "scroll_to_element", "hover", "select_option"]

/-- The loop body of `executeMultiAction` (`executionLoop.ts` lines 765-824).
`i` is the position of the next action in the original batch, `errorCount` the number
of failures so far (`MAX_ERRORS = 3`).  `prim i` is the primitive outcome for action
`i`; `domObs i` is the element list `getIndexedElements` would return just before
action `i` (queried only for `i > 0`). -/
def executeMultiActionGo (elements : List IndexedElement)
    (prim : Nat → Except String Unit) (domObs : Nat → List IndexedElement) :
    List ActionItem → Nat → Nat → List ActionResult
  | [], _, _ => []
  | a :: rest, i, errorCount =>
    if 3 ≤ errorCount then []
    else if 0 < i && hasSignificantDOMChange elements (domObs i) then []
    else
      let r := executeSingleAction (getActionType a) (getActionArgs a) elements (prim i)
      r :: (if r.isDone then []
        else executeMultiActionGo elements prim domObs rest (i + 1)
          (errorCount + (if r.success then 0 else 1)))

/-- `executeMultiAction` from `executionLoop.ts`: run a batch in order, halting on a
done action, on a significant DOM change observed before a non-first action, or once
`errorCount` reaches `MAX_ERRORS = 3`. -/
def executeMultiAction (actions : List ActionItem) (elements : List IndexedElement)
    (prim : Nat → Except String Unit) (domObs : Nat → List IndexedElement) :
    List ActionResult :=
  executeMultiActionGo elements prim domObs actions 0 0

/-! ## Field-type detection (`executionLoop.ts` lines 555-634)

The detection patterns are JS regexes of the shape `/\b(lit1|lit2|...)\b/` where each
literal is a sequence of letter chunks separated by `\s*`.  They are modelled by an
executable matcher over `List Char`: an alternative is a list of chunks, `\s*`
between chunks is a (maximal) run of whitespace, and `\b` demands a non-word
character (or the string edge) on either side.  Since every chunk starts with a
letter, skipping the maximal whitespace run is the only way `\s*` can succeed, so the
matcher is deterministic and complete for this pattern class. -/

/-- JS `\w` (ASCII word character). -/
def isWordChar (c : Char) : Bool := c.isAlphanum || c = '_'

/-- Whitespace accepted for `\s*` between chunks (the combined attribute string only
ever separates its parts with single spaces). -/
def isJsSpace (c : Char) : Bool := c = ' ' || c = '\t' || c = '\n' || c = '\r'

/-- Match a literal chunk at the head of the input, returning the rest. -/
def stripChunk : List Char → List Char → Option (List Char)
  | [], s => some s
  | _ :: _, [] => none
  | c :: cs, x :: xs => if c = x then stripChunk cs xs else none

/-- Match one alternative (chunks separated by `\s*`) at the head of the input. -/
def matchAlt : List (List Char) → List Char → Option (List Char)
  | [], s => some s
  | [c], s => stripChunk c s
  | c :: cs, s =>
    match stripChunk c s with
    | none => none
    | some r => matchAlt cs (r.dropWhile isJsSpace)

/-- Does some alternative match at the head of the input, followed by a word
boundary? -/
def altsMatchHere (alts : List (List (List Char))) (s : List Char) : Bool :=
  alts.any (fun alt =>
    match matchAlt alt s with
    | some [] => true
    | some (c :: _) => !isWordChar c
    | none => false)

/-- Scan the input for a match position with a word boundary before it (`prev` is the
character preceding the current position, `none` at the start). -/
def scanPattern (alts : List (List (List Char))) : Option Char → List Char → Bool
  | _, [] => false
  | prev, c :: cs =>
    ((match prev with | none => true | some p => !isWordChar p) &&
        altsMatchHere alts (c :: cs))
      || scanPattern alts (some c) cs

/-- `pattern.test(combined)` for a `/\b(...)\b/` pattern given by its alternatives
(each a list of `\s*`-separated literal chunks). -/
def regexTest (alts : List (List String)) (s : String) : Bool :=
  scanPattern (alts.map (·.map String.toList)) none s.toList

/-- One entry of the `patterns` array of `detectFieldType`. -/
structure FieldPattern where
  pattern : List (List String)
  fieldType : String
  fieldLabel : String
deriving DecidableEq, Repr

/-- The `patterns` array of `detectFieldType`, in source order. -/
def fieldPatterns : List FieldPattern :=
  [⟨[["full", "name"], ["your", "name"]], "name", "Full Name"⟩,
    ⟨[["first", "name"], ["given", "name"], ["fname"]], "firstName", "First Name"⟩,
    ⟨[["last", "name"], ["family", "name"], ["surname"], ["lname"]], "lastName", "Last Name"⟩,
    ⟨[["email"], ["e-mail"]], "email", "Email Address"⟩,
    ⟨[["phone"], ["telephone"], ["mobile"], ["cell"]], "phone", "Phone Number"⟩,
    ⟨[["address"], ["street"]], "address", "Address"⟩,
    ⟨[["city"], ["town"]], "city", "City"⟩,
    ⟨[["state"], ["province"], ["region"]], "state", "State"⟩,
    ⟨[["zip"], ["postal"], ["postcode"]], "zip", "ZIP Code"⟩,
    ⟨[["country"]], "country", "Country"⟩,
    ⟨[["linkedin"]], "linkedin", "LinkedIn URL"⟩,
    ⟨[["github"]], "github", "GitHub URL"⟩,
    ⟨[["website"], ["portfolio"], ["url"]], "website", "Website"⟩,
    ⟨[["company"], ["employer"], ["organization"]], "company", "Company"⟩,
    ⟨[["title"], ["position"], ["job", "title"], ["role"]], "jobTitle", "Job Title"⟩,
    ⟨[["cover", "letter"]], "coverLetter", "Cover Letter"⟩,
    ⟨[["summary"], ["about"], ["bio"], ["introduction"]], "summary", "Summary"⟩,
    ⟨[["salary"], ["compensation"], ["expected", "salary"]], "salary", "Expected Salary"⟩,
    ⟨[["start", "date"], ["availability"], ["available"]], "startDate", "Start Date"⟩]

/-- The `combined` string of `detectFieldType`:
`` `${text} ${placeholder} ${ariaLabel} ${selector} ${type}` `` with every part
lowercased (absent attributes contribute `''`). -/
def combinedAttrs (el : IndexedElement) : String :=
  jsToLowerCase (jsOr el.text "") ++ " " ++ jsToLowerCase (jsOr el.placeholder "") ++ " " ++
    jsToLowerCase (jsOr el.ariaLabel "") ++ " " ++ jsToLowerCase el.selector ++ " " ++
    jsToLowerCase el.type

/-- `detectFieldType` from `executionLoop.ts`: first pattern (in source order)
matching the combined attribute string wins. -/
def detectFieldType (el : IndexedElement) : Option (String × String) :=
  fieldPatterns.findSome? (fun fp =>
    if regexTest fp.pattern (combinedAttrs el) then some (fp.fieldType, fp.fieldLabel)
    else none)

/-! ## Replay-log mapping (`executionLoop.ts` lines 53-80 and 640-760) -/

/-- `ValueSource` from `executionLoop.ts`. -/
structure ValueSource where
  type : String
  expression : Option String := none
  fieldType : Option String := none
  fieldLabel : Option String := none
  retrievalQuery : Option String := none
deriving DecidableEq, Repr

/-- `PlaywrightAction` from `executionLoop.ts`.  Note the structure carries a
`selector`, never an element index. -/
structure PlaywrightAction where
  operation : String
  selector : Option String := none
  value : Option String := none
  valueSource : Option ValueSource := none
  url : Option String := none
  key : Option String := none
  scrollY : Option Int := none
  ms : Option Nat := none
  description : Option String := none
deriving DecidableEq, Repr

/-- `DataContext` from `executionLoop.ts`; the `resume` record is an association
list from field names to string values. -/
structure DataContext where
  resume : Option (List (String × String)) := none
  customData : Option (List (String × String)) := none
  vectorStorageNode : Option String := none
deriving DecidableEq, Repr

/-- `element?.selector` with JS truthiness (`undefined` element or empty selector
fail the `if (!element?.selector)` guard). -/
def selectorOf (element : Option IndexedElement) : Option String :=
  match element with
  | some el => if el.selector = "" then none else some el.selector
  | none => none

/-- `(args.pixels as number) || 500` (0 is falsy in JS). -/
def pixelsOr500 (pixels : Option Nat) : Nat :=
  match pixels with
  | some p => if p = 0 then 500 else p
  | none => 500

/-- `(args.seconds as number) || 1`. -/
def secondsOr1 (seconds : Option Nat) : Nat :=
  match seconds with
  | some s => if s = 0 then 1 else s
  | none => 1

/-- `mapToPlaywrightAction` from `executionLoop.ts` (lines 640-760): translate a
successful navigator action into the replay-log format, resolving the element's
selector and attaching a `valueSource` for recognised form fields. -/
def mapToPlaywrightAction (actionType : String) (args : ActionArgs)
    (element : Option IndexedElement) (dataContext : Option DataContext) :
    Option PlaywrightAction :=
  let description := args.intent
  if actionType = "click_element" then
    match selectorOf element with
    | none => none
    | some sel => some { operation := "click", selector := some sel, description }
  else if actionType = "input_text" then
    match selectorOf element, element with
    | some sel, some el =>
      let value := args.text
      let fieldInfo := detectFieldType el
      let valueSource : Option ValueSource :=
        match fieldInfo with
        | some (ft, fl) =>
          match dataContext.bind (·.resume) with
          | some r =>
            -- if (resumeValue) — only a present, non-empty value yields a source
            match jsTruthy (r.lookup ft) with
            | some _ =>
              some { type := "resume",
                     expression := some ("\x7b\x7b $json.resume." ++ ft ++ " \x7d\x7d"),
                     fieldType := some ft, fieldLabel := some fl }
            | none => none
          | none =>
            some { type := "expression",
                   expression := some ("\x7b\x7b $json.resume." ++ ft ++ " \x7d\x7d"),
                   fieldType := some ft, fieldLabel := some fl }
        | none => none
      some { operation := "fill", selector := some sel, value, valueSource, description }
    | _, _ => none
  else if actionType = "go_to_url" then
    match args.url with
    | some url =>
      some { operation := "navigate",
             url := some (if url.startsWith "http" then url else "https://" ++ url),
             description }
    | none => none -- unreachable on a successful action: execution already threw on `!url`
  else if actionType = "send_keys" then
    some { operation := "press", key := args.keys, description }
  else if actionType = "scroll_down" then
    some { operation := "scroll", scrollY := some (pixelsOr500 args.pixels : Int), description }
  else if actionType = "scroll_up" then
    some { operation := "scroll", scrollY := some (-(pixelsOr500 args.pixels : Int)), description }
  else if actionType = "scroll_to_element" then
    match selectorOf element with
    | none => none
    | some sel => some { operation := "scroll", selector := some sel, description }
  else if actionType = "hover" then
    match selectorOf element with
    | none => none
    | some sel => some { operation := "hover", selector := some sel, description }
  else if actionType = "select_option" then
    match selectorOf element with
    | none => none
    | some sel =>
      some { operation := "selectOption", selector := some sel, value := args.value, description }
  else if actionType = "wait" then
    some { operation := "wait", ms := some (secondsOr1 args.seconds * 1000), description }
  else none

/-! ## Navigator response parsing (`navigator.ts` lines 165-306) -/

/-- `NavigatorState` from `navigator.ts`. -/
structure NavigatorState where
  evaluation : String
  memory : String
  next_goal : String
deriving DecidableEq, Repr

/-- `NavigatorOutput` from `navigator.ts`. -/
structure NavigatorOutput where
  current_state : NavigatorState
  action : List ActionItem
deriving DecidableEq, Repr

/-- The `current_state` member of the raw JSON value, fields possibly absent. -/
structure RawNavigatorState where
  evaluation : Option String := none
  memory : Option String := none
  next_goal : Option String := none
deriving DecidableEq, Repr

/-- The `action` member of the raw JSON value: an array (whose entries may be `null`
or non-objects, modelled as `none`), a single object, or anything else. -/
inductive RawActionField where
  | array (items : List (Option ActionItem))
  | object (item : ActionItem)
  | other
deriving DecidableEq, Repr

/-- The JSON value produced by `JSON.parse` on a navigator response, as read through
`Partial<NavigatorOutput>`. -/
structure RawNavigatorOutput where
  current_state : Option RawNavigatorState := none
  action : RawActionField := .other
deriving DecidableEq, Repr

/-- `parseNavigatorResponse` from `navigator.ts` (lines 165-215), modelled from the
point where the markdown-stripped response string has been through `JSON.parse`:
`.error ()` is a parse failure (the `catch` branch returning the fallback wait
action), `.ok raw` the parsed value.  Note the cap on the action list is the literal
constant 10. -/
def parseNavigatorResponse (parsed : Except Unit RawNavigatorOutput) : NavigatorOutput :=
  match parsed with
  | .error _ =>
    { current_state :=
        { evaluation := "Unknown", memory := "Parse error", next_goal := "Retry after wait" },
      action := [{ wait := some { seconds := some 1, intent := some "Wait due to parse error" } }] }
  | .ok p =>
    let currentState : NavigatorState :=
      { evaluation := jsOr (p.current_state.bind (·.evaluation)) "Unknown",
        memory := jsOr (p.current_state.bind (·.memory)) "",
        next_goal := jsOr (p.current_state.bind (·.next_goal)) "Continue with task" }
    let actions : List ActionItem :=
      match p.action with
      | .array items => items.filterMap id
      | .object a => [a]
      | .other => []
    let actions := if actions.length > 10 then actions.take 10 else actions
    { current_state := currentState, action := actions }

/-- `runNavigator` from `navigator.ts` (lines 221-306), from the point where the
language model's response has been received and JSON-parsed.  `maxActionsPerStep`
(default 10) is interpolated into the prompt text only; the returned batch is exactly
`parseNavigatorResponse` of the response. -/
def runNavigator (parsedResponse : Except Unit RawNavigatorOutput)
    (maxActionsPerStep : Nat := 10) : NavigatorOutput :=
  let _ := maxActionsPerStep -- used only in the prompt string sent to the model
  parseNavigatorResponse parsedResponse

/-! ## Overlay and screenshot (`elementIndexer.ts` lines 25-38 and 176-243) -/

/-- `HIGHLIGHT_COLORS` from `elementIndexer.ts`. -/
def HIGHLIGHT_COLORS : List String :=
  ["#FF0000", "#00FF00", "#0000FF", "#FFA500", "#800080", "#00FFFF",
    "#FF00FF", "#FFFF00", "#008080", "#FF6347", "#4682B4", "#32CD32"]

/-- The page DOM as far as `drawBoundingBoxes` can affect it: the container div with
id `n8n-highlight-container` (holding one overlay box per element, recorded here by
its border color `colors[el.index % colors.length]`), and the rest of the document,
which the function never touches. -/
structure PageDom where
  highlightContainer : Option (List String) := none
  rest : Nat := 0
deriving DecidableEq, Repr

/-- The overlay boxes injected for an element list. -/
def overlayBoxes (elements : List IndexedElement) : List String :=
  elements.map (fun el => HIGHLIGHT_COLORS[el.index % HIGHLIGHT_COLORS.length]!)

/-- `drawBoundingBoxes` from `elementIndexer.ts` (lines 176-243): inject the overlay
container, take a screenshot, remove the container, return the screenshot.
`screenshotPrim` is the outcome of `page.screenshot` on the page with the overlay
injected (`.error` models it throwing).  A thrown screenshot rejects the returned
promise immediately: the removal step does not run (there is no `try`/`finally`).
The result pairs the DOM state at return/throw time with the outcome. -/
def drawBoundingBoxes (dom : PageDom) (elements : List IndexedElement)
    (screenshotPrim : PageDom → Except String String) :
    PageDom × Except String String :=
  let domInjected := { dom with highlightContainer := some (overlayBoxes elements) }
  match screenshotPrim domInjected with
  | .error e => (domInjected, .error e)
  | .ok shot => ({ domInjected with highlightContainer := none }, .ok shot)

/-! ## Execution loop (`executionLoop.ts` lines 163-550)

The loop's interactions with the world (pages, the planner and navigator models,
browser primitives) are supplied per step through `StepEnv`.  Wall-clock fields of
`ExecutionResult` (`executionTime`), the final screenshot, cookie persistence and
the human delay are omitted: they do not influence the control flow or the data
the claims are about. -/

/-- `PlannerOutput` from `planner.ts`. -/
structure PlannerOutput where
  observation : String := ""
  challenges : String := ""
  done : Bool
  next_steps : String
  final_answer : Option String := none
  reasoning : String := ""
deriving DecidableEq, Repr

/-- `ActionRecord` from `planner.ts` (the `history` entries). -/
structure ActionRecord where
  operation : String
  index : Option Nat := none
  selector : Option String := none
  value : Option String := none
  success : Bool
  error : Option String := none
deriving DecidableEq, Repr

/-- An entry of `ExecutionResult['actions']` (the raw debug log). -/
structure ExecLogEntry where
  operation : String
  index : Option Nat := none
  selector : Option String := none
  value : Option String := none
  success : Bool
  screenshot : Option String := none
  reasoning : Option String := none
deriving DecidableEq, Repr

/-- `ExecutionResult['humanHelpContext']`. -/
structure HumanHelpContext where
  currentUrl : String
  currentTitle : String
  elements : List IndexedElement
  screenshot : Option String := none
  lastError : Option String := none
  suggestedAction : Option String := none
deriving DecidableEq, Repr

/-- `ExecutionResult` from `executionLoop.ts` (`executionTime` and `finalScreenshot`
omitted, see section comment). -/
structure ExecutionResult where
  success : Bool
  result : Option String := none
  error : Option String := none
  actions : List ExecLogEntry
  playwrightActions : List PlaywrightAction
  aiCallsCount : Nat := 0
  needsHumanHelp : Option Bool := none
  humanHelpContext : Option HumanHelpContext := none
deriving DecidableEq, Repr

/-- Everything iteration `s` of the loop observes from the outside world:
`getIndexedElements`, `page.url()`, `page.title()`, the highlighted screenshot
(base64), the parsed planner response (used only when the planner runs this step),
the parsed navigator response, and the primitive outcomes / DOM observations used by
`executeMultiAction`. -/
structure StepEnv where
  url : String := ""
  title : String := ""
  elements : List IndexedElement := []
  screenshot : Option String := none
  plannerOut : PlannerOutput
  navResponse : Except Unit RawNavigatorOutput
  prim : Nat → Except String Unit
  domObs : Nat → List IndexedElement

/-- The configuration fields of `ExecutionOptions` that steer the modelled control
flow. -/
structure LoopConfig where
  maxSteps : Nat
  planningInterval : Nat := 3
  maxActionsPerStep : Nat := 10
  visionEnabled : Bool := false
  dataContext : Option DataContext := none

/-- The mutable state of the loop body. -/
structure LoopState where
  history : List ActionRecord
  actions : List ExecLogEntry
  playwrightActions : List PlaywrightAction
  plannerOutput : Option PlannerOutput
  consecutiveErrors : Nat
  aiCallsCount : Nat

/-- `MAX_CONSECUTIVE_ERRORS` from `executionLoop.ts` line 320. -/
def MAX_CONSECUTIVE_ERRORS : Nat := 5

/-- What the `for` loop over one step's results (lines 431-506) appends to
`history` / `actions` / `playwrightActions`, whether any action in the batch counted
as a success, and the result string when a done action ended the run. -/
structure StepOutcome where
  history : List ActionRecord
  logEntries : List ExecLogEntry
  pwEntries : List PlaywrightAction
  stepHadSuccess : Bool
  doneResult : Option String
deriving DecidableEq, Repr

/-- Lines 448-451: `actionArgs.index !== undefined ? elements.find(e => e.index ===
actionArgs.index) : undefined`. -/
def resolveElement (elements : List IndexedElement) (args : ActionArgs) :
    Option IndexedElement :=
  args.index.bind (fun i => elements.find? (fun e => e.index == i))

/-- `(actionArgs.text || actionArgs.url || actionArgs.value)` (the last operand is
returned as-is, falsy or not). -/
def historyValue (args : ActionArgs) : Option String :=
  match jsTruthy args.text with
  | some v => some v
  | none =>
    match jsTruthy args.url with
    | some v => some v
    | none => args.value

/-- The `for` loop over `results` (lines 431-506): one `(action, result)` pair per
executed action, stopping (with the final result string) at a done result.  The
`history` entry's `selector` comes from `actionArgs.selector`, a key navigator
actions never carry, hence `none`. -/
def processResults (elements : List IndexedElement) (dataContext : Option DataContext) :
    List (ActionItem × ActionResult) → StepOutcome
  | [] =>
    { history := [], logEntries := [], pwEntries := [], stepHadSuccess := false,
      doneResult := none }
  | (action, result) :: rest =>
    let actionType := getActionType action
    let actionArgs := getActionArgs action
    let element := resolveElement elements actionArgs
    let histEntry : ActionRecord :=
      { operation := actionType, index := actionArgs.index, selector := none,
        value := historyValue actionArgs, success := result.success, error := result.error }
    let logEntry : ExecLogEntry :=
      { operation := actionType, index := actionArgs.index,
        selector := element.map (·.selector), value := historyValue actionArgs,
        success := result.success, reasoning := actionArgs.intent }
    let hadSuccess := result.success && actionType != "done"
    let pwEntry : Option PlaywrightAction :=
      if result.success && actionType != "done" then
        mapToPlaywrightAction actionType actionArgs element dataContext
      else none
    if result.isDone then
      { history := [histEntry], logEntries := [logEntry], pwEntries := pwEntry.toList,
        stepHadSuccess := hadSuccess,
        doneResult := some (jsOr result.result "Goal completed successfully") }
    else
      let o := processResults elements dataContext rest
      { history := histEntry :: o.history, logEntries := logEntry :: o.logEntries,
        pwEntries := pwEntry.toList ++ o.pwEntries,
        stepHadSuccess := hadSuccess || o.stepHadSuccess, doneResult := o.doneResult }

/-- The prefix of a batch's `(action, result)` pairs actually processed by the
results loop: all pairs up to and including the first done result (the loop
`return`s at a done result, line 478). -/
def upToDone : List (ActionItem × ActionResult) → List (ActionItem × ActionResult)
  | [] => []
  | p :: rest => if p.2.isDone then [p] else p :: upToDone rest

/-- The replay-log contribution of one processed `(action, result)` pair: the
mapped playwright action when the result succeeded and the action is not `done`
(lines 463-475), nothing otherwise. -/
def pwEntryOf (elements : List IndexedElement) (dc : Option DataContext)
    (p : ActionItem × ActionResult) : Option PlaywrightAction :=
  if p.2.success && getActionType p.1 != "done" then
    mapToPlaywrightAction (getActionType p.1) (getActionArgs p.1)
      (resolveElement elements (getActionArgs p.1)) dc
  else none

/-- Line 367-368: `step === 1 || step % planningInterval === 0 ||
plannerOutput?.done === true`. -/
def shouldRunPlanner (cfg : LoopConfig) (step : Nat) (prevPlanner : Option PlannerOutput) :
    Bool :=
  step == 1 || step % cfg.planningInterval == 0 || prevPlanner.map (·.done) == some true

/-- The navigator batch of one step together with its execution results
(lines 407-427). -/
def stepResults (cfg : LoopConfig) (e : StepEnv) : List ActionItem × List ActionResult :=
  let nav := runNavigator e.navResponse cfg.maxActionsPerStep
  (nav.action, executeMultiAction nav.action e.elements e.prim e.domObs)

/-- The bookkeeping outcome of one step's batch. -/
def stepOutcome (cfg : LoopConfig) (e : StepEnv) : StepOutcome :=
  processResults e.elements cfg.dataContext
    ((stepResults cfg e).1.zip (stepResults cfg e).2)

/-- The loop state after a non-terminal iteration at step number `step`. -/
def stepNewState (cfg : LoopConfig) (e : StepEnv) (step : Nat) (st : LoopState) :
    LoopState :=
  let o := stepOutcome cfg e
  let ranPlanner := shouldRunPlanner cfg step st.plannerOutput
  { history := st.history ++ o.history,
    actions := st.actions ++ o.logEntries,
    playwrightActions := st.playwrightActions ++ o.pwEntries,
    plannerOutput := if ranPlanner then some e.plannerOut else st.plannerOutput,
    consecutiveErrors := if o.stepHadSuccess then 0 else st.consecutiveErrors + 1,
    aiCallsCount := (if ranPlanner then st.aiCallsCount + 1 else st.aiCallsCount) + 1 }

/-- The human-escalation return (lines 340-364): a normal return value carrying
`needsHumanHelp` and the context bundle, not an exception. -/
def escalationResult (e : StepEnv) (shot : Option String) (st : LoopState) :
    ExecutionResult :=
  { success := false, error := some "AI is stuck - needs human assistance",
    actions := st.actions, playwrightActions := st.playwrightActions,
    aiCallsCount := st.aiCallsCount, needsHumanHelp := some true,
    humanHelpContext := some
      { currentUrl := e.url, currentTitle := e.title, elements := e.elements,
        screenshot := shot,
        lastError := st.history.getLast?.bind (·.error),
        suggestedAction := st.plannerOutput.map (·.next_steps) } }

/-- The step-budget-exhausted return (lines 523-533). -/
def maxStepsResult (cfg : LoopConfig) (st : LoopState) : ExecutionResult :=
  { success := false,
    error := some ("Max steps (" ++ toString cfg.maxSteps ++ ") reached without completing goal"),
    actions := st.actions, playwrightActions := st.playwrightActions,
    aiCallsCount := st.aiCallsCount }

/-- The planner-says-done return (lines 375-402); the planner ran this step, so one
model call is added. -/
def plannerDoneResult (e : StepEnv) (st : LoopState) : ExecutionResult :=
  { success := true,
    result := some (jsOr e.plannerOut.final_answer "Goal completed successfully"),
    actions := st.actions, playwrightActions := st.playwrightActions,
    aiCallsCount := st.aiCallsCount + 1 }

/-- The navigator-done return (lines 478-505), issued after the step's bookkeeping. -/
def stepDoneResult (r : String) (st : LoopState) : ExecutionResult :=
  { success := true, result := some r, actions := st.actions,
    playwrightActions := st.playwrightActions, aiCallsCount := st.aiCallsCount }

/-- The `while (step < maxSteps)` loop (lines 322-521).  `remaining` is
`maxSteps - stepsDone` (the loop guard), `stepsDone` the number of completed
iterations; the body increments the step counter, checks the escalation condition,
optionally runs the planner, then runs the navigator and its batch. -/
def loop (cfg : LoopConfig) (env : Nat → StepEnv) :
    Nat → Nat → LoopState → ExecutionResult
  | 0, _, st => maxStepsResult cfg st
  | remaining + 1, stepsDone, st =>
    let step := stepsDone + 1
    let e := env step
    let shot := if cfg.visionEnabled then e.screenshot else none
    if MAX_CONSECUTIVE_ERRORS ≤ st.consecutiveErrors then
      escalationResult e shot st
    else if shouldRunPlanner cfg step st.plannerOutput && e.plannerOut.done then
      plannerDoneResult e st
    else
      let st' := stepNewState cfg e step st
      match (stepOutcome cfg e).doneResult with
      | some r => stepDoneResult r st'
      | none => loop cfg env remaining step st'

/-- The loop state at entry of `executeGoal`'s while loop (lines 214-320):
`previousActions` is the replay-log prefix the run starts from
(`options.resumeOptions.previousActions`, plus any resume-preamble entries — which
the preamble likewise appends only for successfully executed human corrections). -/
def initialState (previousActions : List PlaywrightAction) : LoopState :=
  { history := [], actions := [], playwrightActions := previousActions,
    plannerOutput := none, consecutiveErrors := 0, aiCallsCount := 0 }

/-- `executeGoal` (lines 206-550), from after the browser launch and the resume
preamble. -/
def executeGoal (cfg : LoopConfig) (env : Nat → StepEnv)
    (previousActions : List PlaywrightAction := []) : ExecutionResult :=
  loop cfg env cfg.maxSteps 0 (initialState previousActions)

/-! ## Concrete inputs used by counterexamples and witnesses -/

/-- A minimal indexed element. -/
def mkEl (i : Nat) (sel : String) : IndexedElement := { index := i, selector := sel }

/-- A ten-element snapshot with selectors `s0` … `s9`. -/
def oldSnapshot10 : List IndexedElement :=
  [mkEl 0 "s0", mkEl 1 "s1", mkEl 2 "s2", mkEl 3 "s3", mkEl 4 "s4",
    mkEl 5 "s5", mkEl 6 "s6", mkEl 7 "s7", mkEl 8 "s8", mkEl 9 "s9"]

/-- An eight-element snapshot: five selectors kept from `oldSnapshot10`, three fresh
ones.  3 of 8 new elements (37.5% of the new count, 30% of the old count) are fresh,
and the count shrank by 2 (exactly 20% of the old count). -/
def newSnapshot8 : List IndexedElement :=
  [mkEl 0 "s0", mkEl 1 "s1", mkEl 2 "s2", mkEl 3 "s3", mkEl 4 "s4",
    mkEl 5 "t0", mkEl 6 "t1", mkEl 7 "t2"]

/-- A page DOM with no overlay container present. -/
def cleanDom : PageDom := {}

/-- A click action referencing element index 99 (absent from the snapshots used in
the concrete runs below). -/
def clickIdx99 : ActionItem := { click_element := some { index := 99, intent := some "c" } }

/-- A click action referencing element index 0 (present in the one-element
snapshots below, so it succeeds when its primitive does). -/
def clickIdx0 : ActionItem := { click_element := some { index := 0, intent := some "c" } }

/-- Number of failed results in a result list. -/
def countFailures (rs : List ActionResult) : Nat := rs.countP (fun r => !r.success)

/-- Does the result list contain three failures in a row? -/
def hasThreeConsecutiveFailures : List ActionResult → Bool
  | r1 :: r2 :: r3 :: rest =>
    (!r1.success && !r2.success && !r3.success)
      || hasThreeConsecutiveFailures (r2 :: r3 :: rest)
  | _ => false

/-- The six-action batch for the C3 counterexample: failures and successes strictly
alternate (click on absent index 99 fails, click on index 0 succeeds), so no three
failures are ever consecutive, yet the third cumulative failure halts the batch. -/
def alternatingBatch : List ActionItem :=
  [clickIdx99, clickIdx0, clickIdx99, clickIdx0, clickIdx99, clickIdx0]

/-- A navigator wait action, used to build synthetic batches. -/
def waitAction : ActionItem := { wait := some { seconds := some 2, intent := some "w" } }

/-- Does a step's batch produce zero successful (and zero done) results?  Used to
express "a step that produced zero successful actions". -/
def stepAllFail (cfg : LoopConfig) (e : StepEnv) : Bool :=
  (stepResults cfg e).2.all (fun r => !r.success && !r.isDone)

/-- The loop state after `k` further iterations starting after `stepsDone` completed
steps (each iteration applying `stepNewState` at the next step number). -/
def iterState (cfg : LoopConfig) (env : Nat → StepEnv) :
    Nat → Nat → LoopState → LoopState
  | 0, _, st => st
  | k + 1, stepsDone, st =>
    iterState cfg env k (stepsDone + 1)
      (stepNewState cfg (env (stepsDone + 1)) (stepsDone + 1) st)

/-- A step environment in which the only navigator action is a click on the absent
index 99: every step produces exactly one failed action. -/
def failStepEnv : StepEnv :=
  { url := "https://x.test", title := "X", elements := [mkEl 0 "#a"],
    plannerOut := { done := false, next_steps := "keep going" },
    navResponse := .ok { action := .array [some clickIdx99] },
    prim := fun _ => .ok (), domObs := fun _ => [mkEl 0 "#a"] }

/-- A five-step budget. -/
def cfgFive : LoopConfig := { maxSteps := 5 }

/-- A seven-step budget. -/
def cfgSeven : LoopConfig := { maxSteps := 7 }

/-- A text input whose placeholder is "Email Address". -/
def emailElement : IndexedElement :=
  { index := 3, type := "input[text]", placeholder := some "Email Address", selector := "#e" }

/-- An `input_text` action typing into element 3. -/
def emailInputAction : ActionItem :=
  { input_text := some { index := 3, text := some "x", intent := some "fill email" } }

/-- A raw navigator response whose action array has 25 entries. -/
def rawNavigator25 : RawNavigatorOutput :=
  { action := .array (List.replicate 25 (some waitAction)) }

end BrowserAgent

namespace BrowserAgent

/-! ## Theorems -/

/-- C10: comparing a snapshot against itself — identical count and identical
selectors, including the empty list — never reports a significant DOM change, so an
unchanged page never aborts a batch. -/
theorem hasSignificantDOMChange_self_eq_false (L : List IndexedElement) :
    hasSignificantDOMChange L L = false := by
  unfold hasSignificantDOMChange
  simp only [Int.sub_self, Int.natAbs_zero, Nat.mul_zero]
  rw [if_neg (by omega)]
  have h : (L.map (·.selector)).countP (fun s => !((L.map (·.selector)).contains s)) = 0 := by
    rw [List.countP_eq_zero]
    intro s hs
    simp [hs]
  rw [h]
  simp

/-- C2, counterexample: on a 10-element snapshot followed by an 8-element snapshot
with 3 fresh selectors, the code reports no significant change (3 fresh is not more
than 30% of the OLD count 10), while the claim's reading — more than 30% of the NEW
elements (3 of 8 = 37.5%) — reports one. -/
theorem hasSignificantDOMChange_old_ratio_counterexample :
    hasSignificantDOMChange oldSnapshot10 newSnapshot8 = false ∧
      specHasSignificantDOMChange oldSnapshot10 newSnapshot8 = true := by
  constructor <;> decide

/-- C2, amended: `hasSignificantDOMChange old new` is true iff the element count
differs by more than 20% of the old count, or the number of new-list elements whose
selector is not in the old selector set exceeds 30% of the OLD count (not of the new
count).  Thresholds are stated in exact integer arithmetic. -/
theorem hasSignificantDOMChange_iff (oldE newE : List IndexedElement) :
    hasSignificantDOMChange oldE newE = true ↔
      10 * ((oldE.length : Int) - (newE.length : Int)).natAbs > 2 * oldE.length ∨
        10 * (newE.countP (fun e => !((oldE.map (·.selector)).contains e.selector)))
          > 3 * oldE.length := by
  simp only [hasSignificantDOMChange, List.countP_map]
  by_cases h : 10 * ((oldE.length : Int) - (newE.length : Int)).natAbs > 2 * oldE.length
  · simp [h]
  · simp [h, Function.comp_def]

/-- C5, counterexample: a navigator response containing 25 actions, under a
configured `maxActionsPerStep` of 5, is delivered to the executor as 10 actions —
the hardcoded cap — exceeding the configured ceiling of 5. -/
theorem navigator_cap_counterexample :
    (runNavigator (.ok rawNavigator25) 5).action.length = 10 ∧
      ¬(runNavigator (.ok rawNavigator25) 5).action.length ≤ 5 := by
  constructor <;> decide

/-- C5, amended: the parsed batch is capped to the literal constant 10 regardless of
the configured `maxActionsPerStep`, which is interpolated into the prompt only: for
every configured value, `runNavigator` returns exactly `parseNavigatorResponse` of
the model response, and that batch never exceeds 10 actions (so a 25-action response
is truncated to 10 before execution). -/
theorem navigator_cap_ten (parsed : Except Unit RawNavigatorOutput) (m : Nat) :
    runNavigator parsed m = parseNavigatorResponse parsed ∧
      (runNavigator parsed m).action.length ≤ 10 := by
  refine ⟨rfl, ?_⟩
  match parsed with
  | .error _ => simp [runNavigator, parseNavigatorResponse]
  | .ok p =>
    simp only [runNavigator, parseNavigatorResponse]
    split <;> simp_all

/-- C8, counterexample: when the screenshot capture fails, `drawBoundingBoxes`
propagates the error with the injected highlight container (and its overlay box)
still in the DOM — there is no `try`/`finally` around the capture, so the removal
step never runs and a persistent DOM mutation remains. -/
theorem drawBoundingBoxes_failure_counterexample :
    (drawBoundingBoxes cleanDom [mkEl 0 "#a"] (fun _ => .error "shot failed")).1.highlightContainer
        = some ["#FF0000"] ∧
      (drawBoundingBoxes cleanDom [mkEl 0 "#a"] (fun _ => .error "shot failed")).2
        = .error "shot failed" := by
  constructor <;> rfl

/-- C8, amended: when the screenshot capture succeeds, the injected container and
all overlay boxes are removed before the call returns — starting from a page without
an overlay container, `drawBoundingBoxes` hands back the DOM exactly as it found it,
together with the screenshot.  (On capture failure the error propagates and the
container remains; see the counterexample.) -/
theorem drawBoundingBoxes_success_clean (dom : PageDom) (elements : List IndexedElement)
    (screenshotPrim : PageDom → Except String String) (shot : String)
    (hclean : dom.highlightContainer = none)
    (hshot : screenshotPrim { dom with highlightContainer := some (overlayBoxes elements) }
      = .ok shot) :
    drawBoundingBoxes dom elements screenshotPrim = (dom, .ok shot) := by
  simp only [drawBoundingBoxes]
  rw [hshot]
  obtain ⟨hc, rest⟩ := dom
  simp only at hclean
  subst hclean
  rfl

/-- Witness for the C8 theorem at a concrete page, element list and screenshot
outcome. -/
theorem drawBoundingBoxes_success_clean_witness :
    drawBoundingBoxes cleanDom [mkEl 0 "#a"] (fun _ => .ok "png") = (cleanDom, .ok "png") :=
  drawBoundingBoxes_success_clean cleanDom [mkEl 0 "#a"] (fun _ => .ok "png") "png" rfl rfl

/-- C9: `executeSingleAction` is total at the executor's dispatch boundary.  (i) For
every action type string outside the known switch cases — including the empty string
— and every argument bag, snapshot and primitive outcome, it returns the failed
result carrying the "Unknown action type" error.  (ii) For every non-`done` action
type, a throwing primitive never escapes: the result has `success = false`.
(iii)-(v) Whenever the taken branch actually invokes its browser-automation
primitive, the thrown exception is converted into `success = false` carrying exactly
the thrown error message: unconditionally for the argument-only actions
(`send_keys`, the two scrolls, `wait`); for the index-referencing actions whenever
the referenced element is found in the snapshot; and for `go_to_url` whenever a url
argument is present. -/
theorem executeSingleAction_total :
    (∀ (t : String) (args : ActionArgs) (elements : List IndexedElement)
        (prim : Except String Unit), t ∉ knownActionTypes →
      executeSingleAction t args elements prim
        = { success := false, error := some ("Unknown action type: " ++ t) }) ∧
      (∀ (t : String) (args : ActionArgs) (elements : List IndexedElement) (e : String),
        t ≠ "done" →
        (executeSingleAction t args elements (.error e)).success = false) ∧
      (∀ t ∈ (["send_keys", "scroll_down", "scroll_up", "wait"] : List String),
        ∀ (args : ActionArgs) (elements : List IndexedElement) (e : String),
        executeSingleAction t args elements (.error e)
          = { success := false, error := some e }) ∧
      (∀ t ∈ indexActionTypes,
        ∀ (args : ActionArgs) (elements : List IndexedElement) (el : IndexedElement)
          (e : String),
        elements.find? (fun x => args.index == some x.index) = some el →
        executeSingleAction t args elements (.error e)
          = { success := false, error := some e }) ∧
      (∀ (args : ActionArgs) (elements : List IndexedElement) (u e : String),
        args.url = some u →
        executeSingleAction "go_to_url" args elements (.error e)
          = { success := false, error := some e }) := by
  refine ⟨?_, ?_, ?_, ?_, ?_⟩
  · intro t args elements prim h
    simp only [knownActionTypes, List.mem_cons, List.not_mem_nil, or_false, not_or] at h
    obtain ⟨h1, h2, h3, h4, h5, h6, h7, h8, h9, h10, h11⟩ := h
    simp only [executeSingleAction]
    rw [if_neg h1, if_neg h2, if_neg h3, if_neg h4, if_neg h5, if_neg h6, if_neg h7,
      if_neg h8, if_neg h9, if_neg h10, if_neg h11]
  · intro t args elements e hne
    simp only [executeSingleAction]
    by_cases h1 : t = "click_element"
    · rw [if_pos h1]; cases elements.find? (fun x => args.index == some x.index) <;> rfl
    rw [if_neg h1]
    by_cases h2 : t = "input_text"
    · rw [if_pos h2]; cases elements.find? (fun x => args.index == some x.index) <;> rfl
    rw [if_neg h2]
    by_cases h3 : t = "go_to_url"
    · rw [if_pos h3]; cases args.url <;> rfl
    rw [if_neg h3]
    by_cases h4 : t = "send_keys"
    · rw [if_pos h4]
    rw [if_neg h4]
    by_cases h5 : t = "scroll_down"
    · rw [if_pos h5]
    rw [if_neg h5]
    by_cases h6 : t = "scroll_up"
    · rw [if_pos h6]
    rw [if_neg h6]
    by_cases h7 : t = "scroll_to_element"
    · rw [if_pos h7]; cases elements.find? (fun x => args.index == some x.index) <;> rfl
    rw [if_neg h7]
    by_cases h8 : t = "wait"
    · rw [if_pos h8]
    rw [if_neg h8]
    by_cases h9 : t = "hover"
    · rw [if_pos h9]; cases elements.find? (fun x => args.index == some x.index) <;> rfl
    rw [if_neg h9]
    by_cases h10 : t = "select_option"
    · rw [if_pos h10]; cases elements.find? (fun x => args.index == some x.index) <;> rfl
    rw [if_neg h10, if_neg hne]
  · intro t ht args elements e
    simp only [List.mem_cons, List.not_mem_nil, or_false] at ht
    rcases ht with h | h | h | h <;> subst h <;> rfl
  · intro t ht args elements el e hfind
    simp only [indexActionTypes, List.mem_cons, List.not_mem_nil, or_false] at ht
    rcases ht with h | h | h | h | h
    · subst h
      simp only [executeSingleAction]
      rw [if_pos trivial, hfind]
    · subst h
      simp only [executeSingleAction]
      rw [if_neg (by decide), if_pos trivial, hfind]
    · subst h
      simp only [executeSingleAction]
      rw [if_neg (by decide), if_neg (by decide), if_neg (by decide), if_neg (by decide),
        if_neg (by decide), if_neg (by decide), if_pos trivial, hfind]
    · subst h
      simp only [executeSingleAction]
      rw [if_neg (by decide), if_neg (by decide), if_neg (by decide), if_neg (by decide),
        if_neg (by decide), if_neg (by decide), if_neg (by decide), if_neg (by decide),
        if_pos trivial, hfind]
    · subst h
      simp only [executeSingleAction]
      rw [if_neg (by decide), if_neg (by decide), if_neg (by decide), if_neg (by decide),
        if_neg (by decide), if_neg (by decide), if_neg (by decide), if_neg (by decide),
        if_neg (by decide), if_pos trivial, hfind]
  · intro args elements u e hurl
    simp only [executeSingleAction]
    rw [if_neg (by decide), if_neg (by decide), if_pos trivial, hurl]

/-- With three or more failures already counted, the batch loop stops immediately. -/
theorem executeMultiActionGo_stop (elements : List IndexedElement)
    (prim : Nat → Except String Unit) (domObs : Nat → List IndexedElement)
    (acts : List ActionItem) (i c : Nat) (hc : 3 ≤ c) :
    executeMultiActionGo elements prim domObs acts i c = [] := by
  cases acts <;> simp [executeMultiActionGo, hc]

/-- Starting with `c` prior failures, at most `3 - c` further failures are recorded. -/
theorem executeMultiActionGo_failures_le (elements : List IndexedElement)
    (prim : Nat → Except String Unit) (domObs : Nat → List IndexedElement)
    (acts : List ActionItem) : ∀ i c : Nat,
    countFailures (executeMultiActionGo elements prim domObs acts i c) ≤ 3 - c := by
  induction acts with
  | nil => intro i c; simp [executeMultiActionGo, countFailures]
  | cons a rest ih =>
    intro i c
    simp only [executeMultiActionGo]
    by_cases h3 : 3 ≤ c
    · rw [if_pos h3]; simp [countFailures]
    rw [if_neg h3]
    by_cases hdom : (decide (0 < i) && hasSignificantDOMChange elements (domObs i)) = true
    · rw [if_pos hdom]; simp [countFailures]
    rw [if_neg hdom]
    generalize executeSingleAction (getActionType a) (getActionArgs a) elements (prim i) = r
    by_cases hd : r.isDone
    · rw [if_pos hd]
      by_cases hs : r.success
      · simp [countFailures, List.countP_cons, hs]
      · simp [countFailures, List.countP_cons, hs]
        omega
    rw [if_neg hd]
    by_cases hs : r.success
    · simpa [countFailures, List.countP_cons, hs] using ih (i + 1) c
    · have h := ih (i + 1) (c + 1)
      simp only [countFailures] at h ⊢
      simp [List.countP_cons, hs]
      omega

/-- When the recorded failures reach the cap of 3, the third failure is the last
result: the batch stopped right after it. -/
theorem executeMultiActionGo_third_failure_last (elements : List IndexedElement)
    (prim : Nat → Except String Unit) (domObs : Nat → List IndexedElement)
    (acts : List ActionItem) : ∀ i c : Nat, c < 3 →
    c + countFailures (executeMultiActionGo elements prim domObs acts i c) = 3 →
    ∃ r, (executeMultiActionGo elements prim domObs acts i c).getLast? = some r ∧
      r.success = false := by
  induction acts with
  | nil =>
    intro i c hc h
    simp [executeMultiActionGo, countFailures] at h
    omega
  | cons a rest ih =>
    intro i c hc h
    simp only [executeMultiActionGo] at h ⊢
    rw [if_neg (by omega : ¬3 ≤ c)] at h ⊢
    by_cases hdom : (decide (0 < i) && hasSignificantDOMChange elements (domObs i)) = true
    · rw [if_pos hdom] at h
      simp [countFailures] at h
      omega
    rw [if_neg hdom] at h ⊢
    generalize hE : executeSingleAction (getActionType a) (getActionArgs a) elements (prim i)
      = r at h ⊢
    by_cases hd : r.isDone
    · rw [if_pos hd] at h ⊢
      by_cases hs : r.success
      · simp [countFailures, List.countP_cons, hs] at h
        omega
      · exact ⟨r, rfl, by simpa using hs⟩
    rw [if_neg hd] at h ⊢
    by_cases hs : r.success
    · rw [if_pos hs] at h ⊢
      simp only [Nat.add_zero] at h ⊢
      simp only [countFailures, List.countP_cons, hs] at h
      have hcount : c + countFailures
          (executeMultiActionGo elements prim domObs rest (i + 1) c) = 3 := by
        simp only [countFailures]
        simp at h
        omega
      obtain ⟨r', hlast, hfail⟩ := ih (i + 1) c hc hcount
      refine ⟨r', ?_, hfail⟩
      obtain ⟨b, l, hbl⟩ : ∃ b l,
          executeMultiActionGo elements prim domObs rest (i + 1) c = b :: l := by
        rcases hx : executeMultiActionGo elements prim domObs rest (i + 1) c with
          _ | ⟨b, l⟩
        · rw [hx] at hcount
          simp [countFailures] at hcount
          omega
        · exact ⟨b, l, rfl⟩
      rw [hbl]
      rw [hbl] at hlast
      rw [List.getLast?_cons_cons]
      exact hlast
    · rw [if_neg hs] at h ⊢
      by_cases hc1 : c + 1 < 3
      · simp only [countFailures, List.countP_cons, hs] at h
        have hcount : (c + 1) + countFailures
            (executeMultiActionGo elements prim domObs rest (i + 1) (c + 1)) = 3 := by
          simp only [countFailures]
          simp at h
          omega
        obtain ⟨r', hlast, hfail⟩ := ih (i + 1) (c + 1) hc1 hcount
        refine ⟨r', ?_, hfail⟩
        obtain ⟨b, l, hbl⟩ : ∃ b l,
            executeMultiActionGo elements prim domObs rest (i + 1) (c + 1) = b :: l := by
          rcases hx : executeMultiActionGo elements prim domObs rest (i + 1) (c + 1) with
            _ | ⟨b, l⟩
          · rw [hx] at hcount
            simp [countFailures] at hcount
            omega
          · exact ⟨b, l, rfl⟩
        rw [hbl]
        rw [hbl] at hlast
        rw [List.getLast?_cons_cons]
        exact hlast
      · have hempty : executeMultiActionGo elements prim domObs rest (i + 1) (c + 1) = [] :=
          executeMultiActionGo_stop elements prim domObs rest (i + 1) (c + 1) (by omega)
        rw [hempty]
        exact ⟨r, rfl, by simpa using hs⟩

/-- With no significant DOM change observed and no done action, a batch that stays
under the failure cap runs to completion: one result per action. -/
theorem executeMultiActionGo_complete (elements : List IndexedElement)
    (prim : Nat → Except String Unit) (domObs : Nat → List IndexedElement)
    (hdom : ∀ j, 0 < j → hasSignificantDOMChange elements (domObs j) = false)
    (acts : List ActionItem) : ∀ i c : Nat,
    (∀ r ∈ executeMultiActionGo elements prim domObs acts i c, r.isDone = false) →
    c + countFailures (executeMultiActionGo elements prim domObs acts i c) < 3 →
    (executeMultiActionGo elements prim domObs acts i c).length = acts.length := by
  induction acts with
  | nil => intro i c _ _; simp [executeMultiActionGo]
  | cons a rest ih =>
    intro i c hdone hcount
    by_cases h3 : 3 ≤ c
    · rw [executeMultiActionGo_stop elements prim domObs _ i c h3] at hcount
      simp [countFailures] at hcount
      omega
    have hdomf : ¬(decide (0 < i) && hasSignificantDOMChange elements (domObs i)) = true := by
      rcases Nat.eq_zero_or_pos i with h0 | h0
      · simp [h0]
      · simp [hdom i h0]
    simp only [executeMultiActionGo, if_neg h3, if_neg hdomf] at hdone hcount ⊢
    generalize hE : executeSingleAction (getActionType a) (getActionArgs a) elements (prim i)
      = r at hdone hcount ⊢
    have hd : r.isDone = false := hdone r (List.mem_cons_self r _)
    rw [if_neg (by simp [hd] : ¬r.isDone = true)] at hdone hcount ⊢
    have hdone' : ∀ r' ∈ executeMultiActionGo elements prim domObs rest (i + 1)
        (c + if r.success then 0 else 1), r'.isDone = false :=
      fun r' hr' => hdone r' (List.mem_cons_of_mem r hr')
    have hcount' : (c + if r.success then 0 else 1) + countFailures
        (executeMultiActionGo elements prim domObs rest (i + 1)
          (c + if r.success then 0 else 1)) < 3 := by
      by_cases hs : r.success
      · simp only [countFailures, List.countP_cons, hs] at hcount ⊢
        simp at hcount ⊢
        omega
      · simp only [countFailures, List.countP_cons] at hcount ⊢
        simp [hs] at hcount ⊢
        omega
    rw [List.length_cons, ih (i + 1) (c + if r.success then 0 else 1) hdone' hcount']
    rfl

/-- C3, counterexample: on a six-action batch whose failures and successes strictly
alternate, the sixth action is never executed — the executor halted after the third
cumulative failure even though no three failures were consecutive, and no DOM-change
abort was involved (the observed DOM never changes). -/
theorem executeMultiAction_cumulative_halt_counterexample :
    (executeMultiAction alternatingBatch [mkEl 0 "#a"] (fun _ => .ok ())
        (fun _ => [mkEl 0 "#a"])).length = 5 ∧
      alternatingBatch.length = 6 ∧
      hasThreeConsecutiveFailures (executeMultiAction alternatingBatch [mkEl 0 "#a"]
        (fun _ => .ok ()) (fun _ => [mkEl 0 "#a"])) = false ∧
      hasSignificantDOMChange [mkEl 0 "#a"] [mkEl 0 "#a"] = false := by
  refine ⟨?_, ?_, ?_, ?_⟩ <;> decide

/-- C3, amended: the early halt of a batch is driven by the cumulative number of
failed actions in the batch reaching the fixed constant 3 — not by consecutive
failures — and it is independent of the DOM-change abort: for every batch, snapshot
and primitive outcomes, (a) at most 3 failures are ever recorded, (b) when the third
failure is recorded, it is the last executed action — none of the remaining actions
in the batch is executed — and (c) absent a significant DOM change and a done
action, a batch with fewer than 3 failures runs to completion. -/
theorem executeMultiAction_cumulative_halt (actions : List ActionItem)
    (elements : List IndexedElement) (prim : Nat → Except String Unit)
    (domObs : Nat → List IndexedElement) :
    countFailures (executeMultiAction actions elements prim domObs) ≤ 3 ∧
      (countFailures (executeMultiAction actions elements prim domObs) = 3 →
        ∃ r, (executeMultiAction actions elements prim domObs).getLast? = some r ∧
          r.success = false) ∧
      ((∀ j, 0 < j → hasSignificantDOMChange elements (domObs j) = false) →
        (∀ r ∈ executeMultiAction actions elements prim domObs, r.isDone = false) →
        countFailures (executeMultiAction actions elements prim domObs) < 3 →
        (executeMultiAction actions elements prim domObs).length = actions.length) := by
  refine ⟨?_, ?_, ?_⟩
  · simpa using executeMultiActionGo_failures_le elements prim domObs actions 0 0
  · intro h
    have h' : countFailures (executeMultiActionGo elements prim domObs actions 0 0) = 3 := h
    exact executeMultiActionGo_third_failure_last elements prim domObs actions 0 0
      (by omega) (by omega)
  · intro hdom hdone hcount
    have h' : countFailures (executeMultiActionGo elements prim domObs actions 0 0) < 3 :=
      hcount
    exact executeMultiActionGo_complete elements prim domObs hdom actions 0 0 hdone
      (by omega)

/-- Witness for the C3 theorem at a concrete batch: two failures then a success keep
the batch complete (part (c) applies and all parts are instantiated). -/
theorem executeMultiAction_cumulative_halt_witness :
    countFailures (executeMultiAction [clickIdx99, clickIdx99, clickIdx0] [mkEl 0 "#a"]
        (fun _ => .ok ()) (fun _ => [mkEl 0 "#a"])) ≤ 3 ∧
      (executeMultiAction [clickIdx99, clickIdx99, clickIdx0] [mkEl 0 "#a"]
        (fun _ => .ok ()) (fun _ => [mkEl 0 "#a"])).length = 3 :=
  ⟨(executeMultiAction_cumulative_halt [clickIdx99, clickIdx99, clickIdx0] [mkEl 0 "#a"]
      (fun _ => .ok ()) (fun _ => [mkEl 0 "#a"])).1,
    by
      have h := (executeMultiAction_cumulative_halt [clickIdx99, clickIdx99, clickIdx0]
        [mkEl 0 "#a"] (fun _ => .ok ()) (fun _ => [mkEl 0 "#a"])).2.2
      exact h (fun _ _ => by decide) (by decide) (by decide)⟩

/-- A match found in the suffix, with the correct preceding character, is found in
the whole string. -/
theorem scanPattern_suffix (alts : List (List (List Char))) (ys : List Char) :
    ∀ (xs : List Char) (prev : Option Char),
      scanPattern alts (xs.getLast?.or prev) ys = true →
      scanPattern alts prev (xs ++ ys) = true := by
  intro xs
  induction xs with
  | nil => intro prev h; simpa using h
  | cons x xs ih =>
    intro prev h
    have h' : scanPattern alts (xs.getLast?.or (some x)) ys = true := by
      cases xs with
      | nil => simpa using h
      | cons y l =>
        rw [List.getLast?_cons_cons] at h
        obtain ⟨a, ha⟩ := Option.isSome_iff_exists.mp
          (List.getLast?_isSome.mpr (by simp) : ((y :: l).getLast?).isSome)
        rw [ha] at h
        rw [ha]
        simpa using h
    have htail := ih (some x) h'
    rw [List.cons_append]
    simp only [scanPattern]
    simp [htail]

/-- The email pattern `/\b(email|e-mail)\b/` matches at the head of
`"email …"` when preceded by a space, whatever follows. -/
theorem scanPattern_email_here (rest : List Char) :
    scanPattern ([["email"], ["e-mail"]].map (·.map String.toList)) (some ' ')
      ('e' :: 'm' :: 'a' :: 'i' :: 'l' :: ' ' :: rest) = true := by
  simp [scanPattern, altsMatchHere, matchAlt, stripChunk, isWordChar, isJsSpace]

/-- An element whose placeholder is "Email Address" always matches the email
pattern: the lowercased placeholder contributes `" email address "` to the combined
attribute string, with spaces — word boundaries — on both sides of `email`. -/
theorem regexTest_email_of_placeholder (el : IndexedElement)
    (hph : el.placeholder = some "Email Address") :
    regexTest [["email"], ["e-mail"]] (combinedAttrs el) = true := by
  obtain ⟨rest, hrest⟩ : ∃ rest, (combinedAttrs el).toList
      = ((jsToLowerCase (jsOr el.text "")).data ++ [' ']) ++
        ('e' :: 'm' :: 'a' :: 'i' :: 'l' :: ' ' :: rest) := by
    refine ⟨['a', 'd', 'd', 'r', 'e', 's', 's', ' ']
      ++ (jsToLowerCase (jsOr el.ariaLabel "")).data ++ [' ']
      ++ (jsToLowerCase el.selector).data ++ [' '] ++ (jsToLowerCase el.type).data, ?_⟩
    have hB : jsToLowerCase (jsOr el.placeholder "") = "email address" := by
      rw [hph]; decide
    have hem : ("email address" : String).data
        = ['e', 'm', 'a', 'i', 'l', ' ', 'a', 'd', 'd', 'r', 'e', 's', 's'] := rfl
    have hsp : (" " : String).data = [' '] := rfl
    show (combinedAttrs el).data = _
    simp [combinedAttrs, hB, String.data_append, hem, hsp, List.append_assoc]
  rw [regexTest, hrest]
  apply scanPattern_suffix
  rw [List.getLast?_concat]
  exact scanPattern_email_here _

/-- When none of the three earlier name patterns matches the combined attributes,
an element with placeholder "Email Address" is classified as the `email` field (the
email pattern sits before the later address pattern in the fixed order). -/
theorem detectFieldType_email (el : IndexedElement)
    (hph : el.placeholder = some "Email Address")
    (h1 : regexTest [["full", "name"], ["your", "name"]] (combinedAttrs el) = false)
    (h2 : regexTest [["first", "name"], ["given", "name"], ["fname"]] (combinedAttrs el) = false)
    (h3 : regexTest [["last", "name"], ["family", "name"], ["surname"], ["lname"]]
      (combinedAttrs el) = false) :
    detectFieldType el = some ("email", "Email Address") := by
  have hm := regexTest_email_of_placeholder el hph
  simp [detectFieldType, fieldPatterns, List.findSome?_cons, h1, h2, h3, hm]

/-- C7, counterexample: an `input_text` action targeting an element with placeholder
"Email Address", under a data context whose resume record carries no email value,
produces a `PlaywrightAction` with NO `valueSource` at all (the resume branch is
taken and `resumeValue` is falsy), contradicting `valueSource.fieldType = "email"`. -/
theorem input_text_email_counterexample :
    mapToPlaywrightAction "input_text" (getActionArgs emailInputAction)
        (some emailElement) (some { resume := some [("name", "John")] })
      = some { operation := "fill", selector := some "#e", value := some "x",
               valueSource := none, description := some "fill email" } ∧
      (mapToPlaywrightAction "input_text" (getActionArgs emailInputAction)
        (some emailElement) (some { resume := some [("name", "John")] })).bind
          (·.valueSource) = none := by
  constructor <;> decide

/-- C7, amended: an `input_text` action targeting an element whose placeholder is
"Email Address" produces a replay-log entry whose `valueSource.fieldType` is
`"email"` — the email pattern matches before the later address pattern — provided
(i) none of the three earlier name patterns matches the element's combined
attributes, and (ii) the data context has no resume record, or its resume record
carries a non-empty `email` value (a resume without one yields no `valueSource`,
see the counterexample). -/
theorem input_text_email_valueSource (el : IndexedElement) (args : ActionArgs)
    (dataContext : Option DataContext)
    (hph : el.placeholder = some "Email Address")
    (hsel : ¬el.selector = "")
    (h1 : regexTest [["full", "name"], ["your", "name"]] (combinedAttrs el) = false)
    (h2 : regexTest [["first", "name"], ["given", "name"], ["fname"]] (combinedAttrs el) = false)
    (h3 : regexTest [["last", "name"], ["family", "name"], ["surname"], ["lname"]]
      (combinedAttrs el) = false)
    (hdc : dataContext.bind (·.resume) = none ∨
      ∃ r, dataContext.bind (·.resume) = some r ∧ jsTruthy (r.lookup "email") ≠ none) :
    ∃ pa, mapToPlaywrightAction "input_text" args (some el) dataContext = some pa ∧
      pa.valueSource.map (·.fieldType) = some (some "email") := by
  have hf := detectFieldType_email el hph h1 h2 h3
  unfold mapToPlaywrightAction
  rw [if_neg (by decide : ¬("input_text" : String) = "click_element"),
    if_pos (rfl : ("input_text" : String) = "input_text")]
  simp only [selectorOf, if_neg hsel, hf]
  rcases hdc with hnone | ⟨r, hr, htruthy⟩
  · rw [hnone]
    exact ⟨_, rfl, rfl⟩
  · obtain ⟨v, hv⟩ := Option.ne_none_iff_exists'.mp htruthy
    simp only [hr, hv]
    exact ⟨_, rfl, rfl⟩

/-- Witness for the C7 theorem: the concrete email element with no data context. -/
theorem input_text_email_valueSource_witness :
    ∃ pa, mapToPlaywrightAction "input_text" (getActionArgs emailInputAction)
        (some emailElement) none = some pa ∧
      pa.valueSource.map (·.fieldType) = some (some "email") :=
  input_text_email_valueSource emailElement _ none (by decide) (by decide) (by decide)
    (by decide) (by decide) (Or.inl rfl)

/-- C6: an index-referencing action whose index is absent from the supplied snapshot
fails only that single action: its result is `success = false` with the descriptive
`Element [i] not found` error (the primitive is never consulted), nothing is thrown
(the model is total), and the remaining actions of the batch are processed exactly
as specified from the next position, with one more counted failure. -/
theorem executeMultiAction_missing_index (a : ActionItem) (rest : List ActionItem)
    (elements : List IndexedElement) (prim : Nat → Except String Unit)
    (domObs : Nat → List IndexedElement) (i : Nat)
    (htype : getActionType a ∈ indexActionTypes)
    (hidx : (getActionArgs a).index = some i)
    (habsent : ∀ el ∈ elements, el.index ≠ i) :
    executeMultiAction (a :: rest) elements prim domObs
      = { success := false, error := some (elementNotFound (some i)) }
          :: executeMultiActionGo elements prim domObs rest 1 1 := by
  have hfind : elements.find? (fun x => (getActionArgs a).index == some x.index) = none := by
    apply List.find?_eq_none.mpr
    intro x hx
    simp only [hidx, beq_iff_eq, Option.some.injEq]
    exact fun h => habsent x hx h.symm
  have hsingle : executeSingleAction (getActionType a) (getActionArgs a) elements (prim 0)
      = { success := false, error := some (elementNotFound (some i)) } := by
    simp only [indexActionTypes, List.mem_cons, List.not_mem_nil, or_false] at htype
    simp only [executeSingleAction]
    rcases htype with h | h | h | h | h
    · rw [if_pos h, hfind, hidx]
    · rw [if_neg (by simp [h]), if_pos h, hfind, hidx]
    · rw [if_neg (by simp [h]), if_neg (by simp [h]), if_neg (by simp [h]),
        if_neg (by simp [h]), if_neg (by simp [h]), if_neg (by simp [h]), if_pos h,
        hfind, hidx]
    · rw [if_neg (by simp [h]), if_neg (by simp [h]), if_neg (by simp [h]),
        if_neg (by simp [h]), if_neg (by simp [h]), if_neg (by simp [h]),
        if_neg (by simp [h]), if_neg (by simp [h]), if_pos h, hfind, hidx]
    · rw [if_neg (by simp [h]), if_neg (by simp [h]), if_neg (by simp [h]),
        if_neg (by simp [h]), if_neg (by simp [h]), if_neg (by simp [h]),
        if_neg (by simp [h]), if_neg (by simp [h]), if_neg (by simp [h]), if_pos h,
        hfind, hidx]
  show executeMultiActionGo elements prim domObs (a :: rest) 0 0 = _
  rw [executeMultiActionGo]
  simp only [hsingle]
  rfl

/-- Witness for the C6 theorem: a click on absent index 99 followed by a wait
action, against a one-element snapshot. -/
theorem executeMultiAction_missing_index_witness :
    executeMultiAction (clickIdx99 :: [waitAction]) [mkEl 0 "#a"] (fun _ => .ok ())
        (fun _ => [mkEl 0 "#a"])
      = { success := false, error := some (elementNotFound (some 99)) }
          :: executeMultiActionGo [mkEl 0 "#a"] (fun _ => .ok ()) (fun _ => [mkEl 0 "#a"])
              [waitAction] 1 1 :=
  executeMultiAction_missing_index clickIdx99 [waitAction] [mkEl 0 "#a"] (fun _ => .ok ())
    (fun _ => [mkEl 0 "#a"]) 99 (by decide) (by decide) (by decide)

/-- Witness for the C9 theorem: an unrecognized action type `"frobnicate"`, and a
throwing primitive on each conversion path — a click whose referenced element IS
present in the snapshot (so the click primitive is the failure source), an
argument-only key press, and a url-bearing navigation. -/
theorem executeSingleAction_total_witness :
    executeSingleAction "frobnicate" {} [] (.ok ())
        = { success := false, error := some "Unknown action type: frobnicate" } ∧
      (executeSingleAction "hover" {} [] (.error "boom")).success = false ∧
      executeSingleAction "click_element" { index := some 0 } [mkEl 0 "#a"] (.error "boom")
        = { success := false, error := some "boom" } ∧
      executeSingleAction "send_keys" { keys := some "Enter" } [] (.error "kaput")
        = { success := false, error := some "kaput" } ∧
      executeSingleAction "go_to_url" { url := some "x.test" } [] (.error "netfail")
        = { success := false, error := some "netfail" } :=
  ⟨executeSingleAction_total.1 "frobnicate" {} [] (.ok ()) (by decide),
    executeSingleAction_total.2.1 "hover" {} [] "boom" (by decide),
    executeSingleAction_total.2.2.2.1 "click_element" (by decide) { index := some 0 }
      [mkEl 0 "#a"] (mkEl 0 "#a") "boom" (by decide),
    executeSingleAction_total.2.2.1 "send_keys" (by decide) { keys := some "Enter" } [] "kaput",
    executeSingleAction_total.2.2.2.2 { url := some "x.test" } [] "x.test" "netfail" rfl⟩

/-- Each replay-log entry produced by one step's bookkeeping arises from a
successful, non-done action of that step via `mapToPlaywrightAction`. -/
theorem processResults_pwEntries_mem (elements : List IndexedElement)
    (dataContext : Option DataContext) :
    ∀ pairs : List (ActionItem × ActionResult),
      ∀ pa ∈ (processResults elements dataContext pairs).pwEntries,
        ∃ a r, (a, r) ∈ pairs ∧ r.success = true ∧ getActionType a ≠ "done" ∧
          mapToPlaywrightAction (getActionType a) (getActionArgs a)
            (resolveElement elements (getActionArgs a)) dataContext = some pa := by
  intro pairs
  induction pairs with
  | nil => intro pa hpa; simp [processResults] at hpa
  | cons p rest ih =>
    obtain ⟨action, result⟩ := p
    intro pa hpa
    simp only [processResults] at hpa
    by_cases hd : result.isDone
    · rw [if_pos hd] at hpa
      simp only at hpa
      by_cases hcond : (result.success && getActionType action != "done") = true
      · rw [if_pos hcond] at hpa
        simp only [Bool.and_eq_true, bne_iff_ne, ne_eq] at hcond
        rcases hmap : mapToPlaywrightAction (getActionType action) (getActionArgs action)
            (resolveElement elements (getActionArgs action)) dataContext with _ | pa'
        · rw [hmap] at hpa; simp at hpa
        · rw [hmap] at hpa
          simp only [Option.toList_some, List.mem_singleton] at hpa
          subst hpa
          exact ⟨action, result, List.mem_cons_self _ _, hcond.1, hcond.2, hmap⟩
      · rw [if_neg hcond] at hpa
        simp at hpa
    · rw [if_neg hd] at hpa
      simp only at hpa
      rw [List.mem_append] at hpa
      rcases hpa with hpa | hpa
      · by_cases hcond : (result.success && getActionType action != "done") = true
        · rw [if_pos hcond] at hpa
          simp only [Bool.and_eq_true, bne_iff_ne, ne_eq] at hcond
          rcases hmap : mapToPlaywrightAction (getActionType action) (getActionArgs action)
              (resolveElement elements (getActionArgs action)) dataContext with _ | pa'
          · rw [hmap] at hpa; simp at hpa
          · rw [hmap] at hpa
            simp only [Option.toList_some, List.mem_singleton] at hpa
            subst hpa
            exact ⟨action, result, List.mem_cons_self _ _, hcond.1, hcond.2, hmap⟩
        · rw [if_neg hcond] at hpa
          simp at hpa
      · obtain ⟨a, r, hmem, hs, hnd, hmap⟩ := ih pa hpa
        exact ⟨a, r, List.mem_cons_of_mem _ hmem, hs, hnd, hmap⟩

/-- A step whose results are all failed and non-done contributes no success flag, no
replay-log entries and no done result. -/
theorem processResults_all_fail (elements : List IndexedElement)
    (dataContext : Option DataContext) :
    ∀ pairs : List (ActionItem × ActionResult),
      (∀ p ∈ pairs, p.2.success = false ∧ p.2.isDone = false) →
      (processResults elements dataContext pairs).stepHadSuccess = false ∧
        (processResults elements dataContext pairs).pwEntries = [] ∧
        (processResults elements dataContext pairs).doneResult = none := by
  intro pairs
  induction pairs with
  | nil => intro _; simp [processResults]
  | cons p rest ih =>
    obtain ⟨action, result⟩ := p
    intro h
    obtain ⟨hs, hd⟩ := h (action, result) (List.mem_cons_self _ _)
    replace hs : result.success = false := hs
    replace hd : result.isDone = false := hd
    obtain ⟨ih1, ih2, ih3⟩ := ih (fun q hq => h q (List.mem_cons_of_mem _ hq))
    simp only [processResults]
    rw [if_neg (by simp [hd] : ¬result.isDone = true)]
    refine ⟨?_, ?_, ?_⟩
    · simp [hs, ih1]
    · simp [hs, ih2]
    · simp [ih3]

/-- One step's replay-log contribution lists, in batch order, exactly the mapped
entries of the processed pairs up to the first done result: per-batch execution
order of the pushes at lines 463-475. -/
theorem processResults_pwEntries_eq (elements : List IndexedElement)
    (dc : Option DataContext) :
    ∀ pairs : List (ActionItem × ActionResult),
      (processResults elements dc pairs).pwEntries
        = (upToDone pairs).filterMap (pwEntryOf elements dc) := by
  intro pairs
  induction pairs with
  | nil => simp [processResults, upToDone]
  | cons p rest ih =>
    obtain ⟨action, result⟩ := p
    have hfp : pwEntryOf elements dc (action, result)
        = if (result.success && getActionType action != "done") = true then
            mapToPlaywrightAction (getActionType action) (getActionArgs action)
              (resolveElement elements (getActionArgs action)) dc
          else none := rfl
    simp only [processResults, upToDone]
    by_cases hd : result.isDone
    · rw [if_pos hd, if_pos (show ((action, result).2.isDone = true) from hd)]
      rw [List.filterMap_cons, List.filterMap_nil, hfp]
      cases hX : (if (result.success && getActionType action != "done") = true then
          mapToPlaywrightAction (getActionType action) (getActionArgs action)
            (resolveElement elements (getActionArgs action)) dc
        else none) with
      | none => rfl
      | some b => rfl
    · rw [if_neg (by simp [hd] : ¬result.isDone = true),
        if_neg (show ¬((action, result).2.isDone = true) by simp [hd])]
      rw [List.filterMap_cons, hfp]
      cases hX : (if (result.success && getActionType action != "done") = true then
          mapToPlaywrightAction (getActionType action) (getActionArgs action)
            (resolveElement elements (getActionArgs action)) dc
        else none) with
      | none => simpa using ih
      | some b => simpa using ih

/-- The loop only ever appends to the replay log, and what it appends is the
concatenation, in step order, of the successive steps' replay-log contributions. -/
theorem loop_pw_order (cfg : LoopConfig) (env : Nat → StepEnv) :
    ∀ (fuel stepsDone : Nat) (st : LoopState),
      ∃ m, (loop cfg env fuel stepsDone st).playwrightActions
          = st.playwrightActions
            ++ ((List.range m).map
                (fun i => (stepOutcome cfg (env (stepsDone + 1 + i))).pwEntries)).flatten := by
  intro fuel
  induction fuel with
  | zero =>
    intro sd st
    exact ⟨0, by simp [loop, maxStepsResult]⟩
  | succ n ih =>
    intro sd st
    simp only [loop]
    by_cases hesc : MAX_CONSECUTIVE_ERRORS ≤ st.consecutiveErrors
    · rw [if_pos hesc]
      exact ⟨0, by simp [escalationResult]⟩
    rw [if_neg hesc]
    by_cases hpd : (shouldRunPlanner cfg (sd + 1) st.plannerOutput
        && (env (sd + 1)).plannerOut.done) = true
    · rw [if_pos hpd]
      exact ⟨0, by simp [plannerDoneResult]⟩
    rw [if_neg hpd]
    rcases hdone : (stepOutcome cfg (env (sd + 1))).doneResult with _ | r
    · obtain ⟨m, heq⟩ := ih (sd + 1) (stepNewState cfg (env (sd + 1)) (sd + 1) st)
      refine ⟨m + 1, ?_⟩
      rw [heq]
      have hshift : ((List.range m).map
            (fun i => (stepOutcome cfg (env (sd + 1 + 1 + i))).pwEntries))
          = ((List.range m).map
            (fun i => (stepOutcome cfg (env (sd + 1 + (i + 1)))).pwEntries)) := by
        refine List.map_congr_left (fun i _ => ?_)
        have : sd + 1 + 1 + i = sd + 1 + (i + 1) := by omega
        rw [this]
      rw [hshift, List.range_succ_eq_map, List.map_cons, List.map_map, List.flatten_cons]
      simp only [stepNewState, Function.comp]
      rw [List.append_assoc]
      rfl
    · refine ⟨1, ?_⟩
      have h1 : List.range 1 = [0] := by decide
      rw [h1, List.map_cons, List.map_nil, List.flatten_cons, List.flatten_nil,
        List.append_nil]
      simp [stepDoneResult, stepNewState]

/-- An index-referencing action reaches the replay log only through the selector
resolved from the snapshot: a successful mapping implies the element was present and
the logged selector is exactly the element's. -/
theorem mapToPlaywrightAction_selector_resolved (t : String) (args : ActionArgs)
    (el : Option IndexedElement) (dc : Option DataContext) (pa : PlaywrightAction)
    (ht : t ∈ indexActionTypes) (hmap : mapToPlaywrightAction t args el dc = some pa) :
    ∃ e, el = some e ∧ pa.selector = some e.selector := by
  simp only [indexActionTypes, List.mem_cons, List.not_mem_nil, or_false] at ht
  rcases hso : selectorOf el with _ | s
  · exfalso
    have hnone : mapToPlaywrightAction t args el dc = none := by
      rcases ht with h | h | h | h | h
      · subst h
        unfold mapToPlaywrightAction
        rw [if_pos rfl, hso]
      · subst h
        unfold mapToPlaywrightAction
        rw [if_neg (by decide), if_pos rfl, hso]
      · subst h
        unfold mapToPlaywrightAction
        rw [if_neg (by decide), if_neg (by decide), if_neg (by decide), if_neg (by decide),
          if_neg (by decide), if_neg (by decide), if_pos rfl, hso]
      · subst h
        unfold mapToPlaywrightAction
        rw [if_neg (by decide), if_neg (by decide), if_neg (by decide), if_neg (by decide),
          if_neg (by decide), if_neg (by decide), if_neg (by decide), if_pos rfl, hso]
      · subst h
        unfold mapToPlaywrightAction
        rw [if_neg (by decide), if_neg (by decide), if_neg (by decide), if_neg (by decide),
          if_neg (by decide), if_neg (by decide), if_neg (by decide), if_neg (by decide),
          if_pos rfl, hso]
    rw [hnone] at hmap
    exact Option.noConfusion hmap
  · obtain ⟨e, hel, hs⟩ : ∃ e, el = some e ∧ s = e.selector := by
      rcases el with _ | e
      · simp [selectorOf] at hso
      · by_cases hse : e.selector = ""
        · simp [selectorOf, hse] at hso
        · simp only [selectorOf, if_neg hse, Option.some.injEq] at hso
          exact ⟨e, rfl, hso.symm⟩
    subst hel
    subst hs
    refine ⟨e, rfl, ?_⟩
    rcases ht with h | h | h | h | h
    · subst h
      unfold mapToPlaywrightAction at hmap
      rw [if_pos rfl, hso] at hmap
      injection hmap with h2
      rw [← h2]
    · subst h
      unfold mapToPlaywrightAction at hmap
      rw [if_neg (by decide), if_pos rfl, hso] at hmap
      injection hmap with h2
      rw [← h2]
    · subst h
      unfold mapToPlaywrightAction at hmap
      rw [if_neg (by decide), if_neg (by decide), if_neg (by decide), if_neg (by decide),
        if_neg (by decide), if_neg (by decide), if_pos rfl, hso] at hmap
      injection hmap with h2
      rw [← h2]
    · subst h
      unfold mapToPlaywrightAction at hmap
      rw [if_neg (by decide), if_neg (by decide), if_neg (by decide), if_neg (by decide),
        if_neg (by decide), if_neg (by decide), if_neg (by decide), if_pos rfl, hso] at hmap
      injection hmap with h2
      rw [← h2]
    · subst h
      unfold mapToPlaywrightAction at hmap
      rw [if_neg (by decide), if_neg (by decide), if_neg (by decide), if_neg (by decide),
        if_neg (by decide), if_neg (by decide), if_neg (by decide), if_neg (by decide),
        if_pos rfl, hso] at hmap
      injection hmap with h2
      rw [← h2]

/-- C4: replay-log purity.  (i) For every run, the final `playwrightActions` list is
the initial prefix (resume actions) followed, append-only, by the concatenation in
step order of the first `m` steps' replay-log contributions, each entry of which
arises from a successful, non-done action of its step through
`mapToPlaywrightAction` applied to the element resolved from that step's snapshot —
failed actions never contribute, and existing entries are never mutated.  (ii) Each
step's contribution lists, in batch order, the mapped entries of the pairs processed
up to the first done result.  (iii) Every index-referencing action is logged with the
resolved selector of its snapshot element, never the transient index (the
`PlaywrightAction` type carries no index field at all). -/
theorem executeGoal_replay_log_purity (cfg : LoopConfig) (env : Nat → StepEnv)
    (previousActions : List PlaywrightAction) :
    (∃ m, (executeGoal cfg env previousActions).playwrightActions
        = previousActions
          ++ ((List.range m).map (fun i => (stepOutcome cfg (env (1 + i))).pwEntries)).flatten ∧
      ∀ pa ∈ ((List.range m).map
          (fun i => (stepOutcome cfg (env (1 + i))).pwEntries)).flatten,
        ∃ s a r, 0 < s ∧
          (a, r) ∈ (stepResults cfg (env s)).1.zip (stepResults cfg (env s)).2 ∧
          r.success = true ∧ getActionType a ≠ "done" ∧
          mapToPlaywrightAction (getActionType a) (getActionArgs a)
            (resolveElement (env s).elements (getActionArgs a)) cfg.dataContext = some pa) ∧
      (∀ s, (stepOutcome cfg (env s)).pwEntries
          = (upToDone ((stepResults cfg (env s)).1.zip (stepResults cfg (env s)).2)).filterMap
              (pwEntryOf (env s).elements cfg.dataContext)) ∧
      (∀ (t : String) (args : ActionArgs) (el : Option IndexedElement)
          (dc : Option DataContext) (pa : PlaywrightAction), t ∈ indexActionTypes →
        mapToPlaywrightAction t args el dc = some pa →
        ∃ e, el = some e ∧ pa.selector = some e.selector) := by
  refine ⟨?_, ?_, ?_⟩
  · obtain ⟨m, heq⟩ := loop_pw_order cfg env cfg.maxSteps 0 (initialState previousActions)
    refine ⟨m, heq, ?_⟩
    intro pa hpa
    rw [List.mem_flatten] at hpa
    obtain ⟨l, hl, hpal⟩ := hpa
    rw [List.mem_map] at hl
    obtain ⟨i, _, hli⟩ := hl
    subst hli
    obtain ⟨a, r, hzip, hsucc, hnd, hmap⟩ :=
      processResults_pwEntries_mem (env (1 + i)).elements cfg.dataContext _ pa hpal
    exact ⟨1 + i, a, r, by omega, hzip, hsucc, hnd, hmap⟩
  · intro s
    exact processResults_pwEntries_eq (env s).elements cfg.dataContext _
  · intro t args el dc pa ht hmap
    exact mapToPlaywrightAction_selector_resolved t args el dc pa ht hmap

/-- One failing, non-planner-done loop iteration just advances the state. -/
theorem loop_step_fail (cfg : LoopConfig) (env : Nat → StepEnv) (n sd : Nat)
    (st : LoopState)
    (hesc : st.consecutiveErrors < MAX_CONSECUTIVE_ERRORS)
    (hpd : (env (sd + 1)).plannerOut.done = false)
    (hdone : (stepOutcome cfg (env (sd + 1))).doneResult = none) :
    loop cfg env (n + 1) sd st
      = loop cfg env n (sd + 1) (stepNewState cfg (env (sd + 1)) (sd + 1) st) := by
  simp only [loop]
  rw [if_neg (by omega), if_neg (by simp [hpd]), hdone]

/-- A zero-success step increments the consecutive-error counter and leaves the
replay log untouched. -/
theorem stepNewState_fail (cfg : LoopConfig) (e : StepEnv) (step : Nat) (st : LoopState)
    (hfail : stepAllFail cfg e = true) :
    (stepNewState cfg e step st).consecutiveErrors = st.consecutiveErrors + 1 ∧
      (stepNewState cfg e step st).playwrightActions = st.playwrightActions ∧
      (stepOutcome cfg e).doneResult = none := by
  have hall : ∀ p ∈ (stepResults cfg e).1.zip (stepResults cfg e).2,
      p.2.success = false ∧ p.2.isDone = false := by
    intro p hp
    have h2 := (List.of_mem_zip hp).2
    have h3 := (List.all_eq_true.mp hfail) p.2 h2
    simp only [Bool.and_eq_true, Bool.not_eq_true'] at h3
    exact h3
  obtain ⟨h1, h2, h3⟩ := processResults_all_fail e.elements cfg.dataContext _ hall
  have h1a : (stepOutcome cfg e).stepHadSuccess = false := h1
  have h2a : (stepOutcome cfg e).pwEntries = [] := h2
  have h3a : (stepOutcome cfg e).doneResult = none := h3
  refine ⟨?_, ?_, h3a⟩
  · simp [stepNewState, h1a]
  · simp [stepNewState, h2a]

/-- With the counter at the threshold, the next iteration escalates immediately. -/
theorem loop_escalates (cfg : LoopConfig) (env : Nat → StepEnv) (n sd : Nat)
    (st : LoopState) (hc : MAX_CONSECUTIVE_ERRORS ≤ st.consecutiveErrors) :
    loop cfg env (n + 1) sd st
      = escalationResult (env (sd + 1))
          (if cfg.visionEnabled then (env (sd + 1)).screenshot else none) st := by
  simp only [loop, if_pos hc]

/-- `k` zero-success, non-planner-done steps in a row advance the loop `k`
iterations, add `k` to the consecutive-error counter and leave the replay log
untouched (as long as the counter stays within the threshold). -/
theorem loop_fail_chain (cfg : LoopConfig) (env : Nat → StepEnv) :
    ∀ (k sd : Nat) (st : LoopState),
      (∀ j, sd < j → j ≤ sd + k → stepAllFail cfg (env j) = true ∧
        (env j).plannerOut.done = false) →
      st.consecutiveErrors + k ≤ MAX_CONSECUTIVE_ERRORS →
      ∀ n, loop cfg env (n + k) sd st
          = loop cfg env n (sd + k) (iterState cfg env k sd st) ∧
        (iterState cfg env k sd st).consecutiveErrors = st.consecutiveErrors + k ∧
        (iterState cfg env k sd st).playwrightActions = st.playwrightActions := by
  intro k
  induction k with
  | zero => intro sd st _ _ n; exact ⟨rfl, rfl, rfl⟩
  | succ k ihk =>
    intro sd st hfail hc n
    obtain ⟨hstep1, hstep2, hstep3⟩ := stepNewState_fail cfg (env (sd + 1)) (sd + 1) st
      ((hfail (sd + 1) (by omega) (by omega)).1)
    have hchain := ihk (sd + 1) (stepNewState cfg (env (sd + 1)) (sd + 1) st)
      (fun j hj1 hj2 => hfail j (by omega) (by omega)) (by omega) n
    have hfirst := loop_step_fail cfg env (n + k) sd st (by omega)
      (hfail (sd + 1) (by omega) (by omega)).2 hstep3
    have hiter : iterState cfg env (k + 1) sd st
        = iterState cfg env k (sd + 1) (stepNewState cfg (env (sd + 1)) (sd + 1) st) := rfl
    refine ⟨?_, ?_, ?_⟩
    · have h1 : loop cfg env (n + (k + 1)) sd st
          = loop cfg env n (sd + 1 + k)
              (iterState cfg env k (sd + 1) (stepNewState cfg (env (sd + 1)) (sd + 1) st)) := by
        rw [show n + (k + 1) = (n + k) + 1 from rfl, hfirst]
        exact hchain.1
      rw [h1, hiter, show sd + 1 + k = sd + (k + 1) from by omega]
    · rw [hiter, hchain.2.1, hstep1]
      omega
    · rw [hiter, hchain.2.2, hstep2]

/-- C1 (amended): the rolling counter and the escalation.  (i) Whenever the counter
is 0 and the next five steps each produce zero successful actions (with the planner
not declaring the goal done), and at least one further iteration of budget remains
(`fuel = n + 6`), the run terminates by returning — not throwing — the escalation
result: `success = false`, `needsHumanHelp = true`, and the context bundle populated
from the sixth step's page (url, title, full element list) plus the last recorded
error and the last planner directive; the replay log is untouched by the five
failing steps.  (ii) The same at the start of a run through `executeGoal`, when
`maxSteps ≥ 6`.  (iii) The counter resets to 0 on any step with at least one
success, and (iv) increments by exactly 1 on any zero-success step.  (v) The
escalation value always carries `success = false`, `needsHumanHelp = true` and the
populated context bundle. -/
theorem executeGoal_escalation (cfg : LoopConfig) (env : Nat → StepEnv) :
    (∀ (sd n : Nat) (st : LoopState), st.consecutiveErrors = 0 →
      (∀ j, sd < j → j ≤ sd + 5 → stepAllFail cfg (env j) = true ∧
        (env j).plannerOut.done = false) →
      loop cfg env (n + 6) sd st
        = escalationResult (env (sd + 6))
            (if cfg.visionEnabled then (env (sd + 6)).screenshot else none)
            (iterState cfg env 5 sd st) ∧
        (iterState cfg env 5 sd st).consecutiveErrors = 5 ∧
        (iterState cfg env 5 sd st).playwrightActions = st.playwrightActions) ∧
      (∀ (prev : List PlaywrightAction), 6 ≤ cfg.maxSteps →
        (∀ j, 1 ≤ j → j ≤ 5 → stepAllFail cfg (env j) = true ∧
          (env j).plannerOut.done = false) →
        executeGoal cfg env prev
          = escalationResult (env 6)
              (if cfg.visionEnabled then (env 6).screenshot else none)
              (iterState cfg env 5 0 (initialState prev))) ∧
      (∀ (e : StepEnv) (step : Nat) (st : LoopState),
        (stepOutcome cfg e).stepHadSuccess = true →
          (stepNewState cfg e step st).consecutiveErrors = 0) ∧
      (∀ (e : StepEnv) (step : Nat) (st : LoopState),
        (stepOutcome cfg e).stepHadSuccess = false →
          (stepNewState cfg e step st).consecutiveErrors = st.consecutiveErrors + 1) ∧
      (∀ (e : StepEnv) (shot : Option String) (st : LoopState),
        (escalationResult e shot st).success = false ∧
          (escalationResult e shot st).needsHumanHelp = some true ∧
          (escalationResult e shot st).humanHelpContext
            = some { currentUrl := e.url, currentTitle := e.title, elements := e.elements,
                     screenshot := shot,
                     lastError := st.history.getLast?.bind (·.error),
                     suggestedAction := st.plannerOutput.map (·.next_steps) }) := by
  have hmain : ∀ (sd n : Nat) (st : LoopState), st.consecutiveErrors = 0 →
      (∀ j, sd < j → j ≤ sd + 5 → stepAllFail cfg (env j) = true ∧
        (env j).plannerOut.done = false) →
      loop cfg env (n + 6) sd st
        = escalationResult (env (sd + 6))
            (if cfg.visionEnabled then (env (sd + 6)).screenshot else none)
            (iterState cfg env 5 sd st) ∧
        (iterState cfg env 5 sd st).consecutiveErrors = 5 ∧
        (iterState cfg env 5 sd st).playwrightActions = st.playwrightActions := by
    intro sd n st hc hfail
    have hchain := loop_fail_chain cfg env 5 sd st hfail (by rw [hc]; decide) (n + 1)
    have hc5 : (iterState cfg env 5 sd st).consecutiveErrors = 5 := by
      rw [hchain.2.1, hc]
    have hesc := loop_escalates cfg env n (sd + 5) (iterState cfg env 5 sd st)
      (by rw [hc5]; decide)
    refine ⟨?_, hc5, hchain.2.2⟩
    rw [show n + 6 = (n + 1) + 5 from by omega, hchain.1]
    rw [show sd + 5 + 1 = sd + 6 from by omega] at hesc
    exact hesc
  refine ⟨hmain, ?_, ?_, ?_, ?_⟩
  · intro prev hms hfail
    have h := hmain 0 (cfg.maxSteps - 6) (initialState prev) rfl
      (fun j h1 h2 => hfail j (by omega) (by omega))
    have hfuel : cfg.maxSteps = cfg.maxSteps - 6 + 6 := by omega
    show loop cfg env cfg.maxSteps 0 (initialState prev) = _
    rw [hfuel]
    exact h.1
  · intro e step st h
    simp [stepNewState, h]
  · intro e step st h
    simp [stepNewState, h]
  · intro e shot st
    exact ⟨rfl, rfl, rfl⟩

/-- Witness for the C1 theorem: with a seven-step budget and every step failing its
single click, the run escalates at step 6. -/
theorem executeGoal_escalation_witness :
    executeGoal cfgSeven (fun _ => failStepEnv)
      = escalationResult failStepEnv none
          (iterState cfgSeven (fun _ => failStepEnv) 5 0 (initialState [])) :=
  (executeGoal_escalation cfgSeven (fun _ => failStepEnv)).2.1 []
    (by decide) (fun j h1 h2 => ⟨by decide, by decide⟩)

/-- C1, counterexample: with `maxSteps = 5`, five consecutive steps each producing
zero successful actions do NOT terminate the run with `needsHumanHelp = true` — the
step budget runs out first and the max-steps failure is returned without the
human-help flag (the escalation check only fires at the start of the following
step). -/
theorem executeGoal_budget_counterexample :
    (executeGoal cfgFive (fun _ => failStepEnv)).needsHumanHelp = none ∧
      (executeGoal cfgFive (fun _ => failStepEnv)).success = false ∧
      (executeGoal cfgFive (fun _ => failStepEnv)).error
        = some "Max steps (5) reached without completing goal" ∧
      (executeGoal cfgFive (fun _ => failStepEnv)).actions.length = 5 ∧
      (executeGoal cfgFive (fun _ => failStepEnv)).actions.all (fun a => !a.success) = true ∧
      stepAllFail cfgFive failStepEnv = true := by
  refine ⟨?_, ?_, ?_, ?_, ?_, ?_⟩ <;> decide

end BrowserAgent
